import Mathlib

/-!
Shallow embedding of the codemind orchestration core (retry handler,
orchestrator, rate limiters, provider clients, XML normalizers) and proofs
about the claims of the specification.

Conventions used throughout:
* Python exceptions are values of `PyExc`; a fallible Python function is
  embedded as a Lean function into `Except PyExc _`.
* Logging calls are modelled as no-ops (they do not affect the data flow).
* Wall-clock time is threaded explicitly as a rational `now` where the code
  reads `time.monotonic()`; durations recorded purely for logging/metadata
  are not modelled.
* Remote-service calls are external collaborators: their replies enter the
  model as explicit parameters (`Except PyExc _` outcomes).
-/

/- ----------------------------------------------------------------------
Python string primitives used by the embedded code
---------------------------------------------------------------------- -/

deriving instance DecidableEq for Except

/-- Python `str.strip()` (leading and trailing whitespace removed). -/
def pyStrip (s : String) : String :=
  String.mk (((s.data.dropWhile Char.isWhitespace).reverse.dropWhile
    Char.isWhitespace).reverse)

/-- Python `str.lstrip()`. -/
def pyLStrip (s : String) : String := String.mk (s.data.dropWhile Char.isWhitespace)

/-- Does `needle` occur at the head of `hay`? (helper for substring search) -/
def charsAt : List Char → List Char → Bool
  | [], _ => true
  | _ :: _, [] => false
  | n :: ns, h :: hs => n = h && charsAt ns hs

/-- Index of the first occurrence of `needle` in `hay` (as char lists). -/
def charsFind : List Char → List Char → Option Nat
  | needle, [] => if needle.isEmpty then some 0 else none
  | needle, h :: hs =>
    if charsAt needle (h :: hs) then some 0
    else (charsFind needle hs).map (· + 1)

/-- Python `hay.find(needle)` restricted to a found index (`none` = `-1`). -/
def strFind (hay needle : String) : Option Nat := charsFind needle.data hay.data

/-- Python `needle in hay`. -/
def hasSub (hay needle : String) : Bool := (strFind hay needle).isSome

/-- Python slice `s[a:b]` (codepoint indices, clamping semantics). -/
def pySubstr (s : String) (a b : Nat) : String :=
  String.mk ((s.data.drop a).take (b - a))

/-- Index of the last occurrence of `needle` in `hay`. -/
def charsFindLast (needle hay : List Char) : Option Nat :=
  ((List.range (hay.length + 1)).filter (fun i => charsAt needle (hay.drop i))).getLast?

/-- Python `str.startswith`. -/
def strStarts (s p : String) : Bool := charsAt p.data s.data

/-- Python `str.endswith`. -/
def strEnds (s p : String) : Bool := charsAt p.data.reverse s.data.reverse

/-- Python `str.split(sep)` worker: split at non-overlapping occurrences,
left to right; `fuel` bounds the scan (one unit per consumed character). -/
def splitOnFuel (sep : List Char) : Nat → List Char → List Char → List (List Char)
  | 0, rest, acc => [acc.reverse ++ rest]
  | _ + 1, [], acc => [acc.reverse]
  | fuel + 1, h :: t, acc =>
    if charsAt sep (h :: t) && !sep.isEmpty then
      acc.reverse :: splitOnFuel sep fuel (t.drop (sep.length - 1)) []
    else
      splitOnFuel sep fuel t (h :: acc)

/-- Python `s.split(sep)` for a non-empty separator (the sole use here;
Python raises on an empty separator, modelled as the identity split). -/
def strSplitOn (s sep : String) : List String :=
  if sep.data.isEmpty then [s]
  else (splitOnFuel sep.data (s.data.length + 1) s.data []).map String.mk

/-- Python `str.replace` worker (non-overlapping, left to right). -/
def replaceFuel (pat rep : List Char) : Nat → List Char → List Char
  | 0, rest => rest
  | _ + 1, [] => []
  | fuel + 1, h :: t =>
    if charsAt pat (h :: t) && !pat.isEmpty then
      rep ++ replaceFuel pat rep fuel (t.drop (pat.length - 1))
    else
      h :: replaceFuel pat rep fuel t

/-- Python `s.replace(pat, rep)` for a non-empty pattern (the sole use
here). -/
def strReplace (s pat rep : String) : String :=
  if pat.data.isEmpty then s
  else String.mk (replaceFuel pat.data rep.data s.data.length s.data)

/-- Python slice `s[a:]` for a possibly negative `a`. -/
def pyDropFrom (a : Int) (l : List α) : List α :=
  if a < 0 then l.drop (max 0 ((l.length : Int) + a)).toNat
  else l.drop (min l.length a.toNat)

/-- Python `lst[-k:]` for a nonnegative count `k`: note that `k = 0` yields
the whole list (`lst[-0:] == lst[0:] == lst`), not the empty list. -/
def pyTailSlice (k : Nat) (l : List α) : List α :=
  if k = 0 then l else l.drop (l.length - min k l.length)

/-- Python `s.rsplit(sep, 1)[0]`: everything before the last occurrence of
`sep` (the string itself if `sep` does not occur). -/
def pyRSplitHead (s sep : String) : String :=
  match charsFindLast sep.data s.data with
  | some i => String.mk (s.data.take i)
  | none => s

/- ----------------------------------------------------------------------
Exceptions (src/mvp_orchestrator/error_types.py and the standard/library
exception classes that participate in the control flow)
---------------------------------------------------------------------- -/

/-- The Python exception classes that flow through the orchestration core.
`localReasoningError` / `localSynthesisError` are the module-level classes
re-declared inside `enhanced_orchestrator.py` (lines 97–107), which shadow
the imported `error_types.ReasoningError` / `error_types.SynthesisError`
inside that module.  `otherError` covers any further class. -/
inductive ExcCls where
  | rateLimitError
  | reasoningError
  | synthesisError
  | validationError
  | sandboxError
  | configurationError
  | geminiAPIError
  | claudeAPIError
  | xmlProcessingError
  | xmlSyntaxError
  | connectionError
  | timeoutError
  | clientError
  | osError
  | localReasoningError
  | localSynthesisError
  | valueError
  | otherError (name : String)
  deriving DecidableEq, Repr

/-- `type(e).__name__` for the modelled classes. -/
def ExcCls.name : ExcCls → String
  | .rateLimitError => "RateLimitError"
  | .reasoningError => "ReasoningError"
  | .synthesisError => "SynthesisError"
  | .validationError => "ValidationError"
  | .sandboxError => "SandboxError"
  | .configurationError => "ConfigurationError"
  | .geminiAPIError => "GeminiAPIError"
  | .claudeAPIError => "ClaudeAPIError"
  | .xmlProcessingError => "XMLProcessingError"
  | .xmlSyntaxError => "XMLSyntaxError"
  | .connectionError => "ConnectionError"
  | .timeoutError => "TimeoutError"
  | .clientError => "ClientError"
  | .osError => "OSError"
  | .localReasoningError => "ReasoningError"
  | .localSynthesisError => "SynthesisError"
  | .valueError => "ValueError"
  | .otherError n => n

/-- A raised Python exception.  `details` is `none` when the object has no
`details` attribute (`getattr(e, 'details', None)` yields `None`), and
`some d` when it has one (every `CodeMindError` defaults it to `{}`).
`retryAfter` models the `retry_after` attribute of `RateLimitError`. -/
structure PyExc where
  cls : ExcCls
  msg : String
  details : Option (List (String × String)) := none
  retryAfter : Option ℚ := none
  deriving DecidableEq, Repr

/-- The retryable classes of `retry_handler.py` lines 218–220:
`aiohttp.ClientError, asyncio.TimeoutError, ConnectionError, TimeoutError,
OSError, RateLimitError, ReasoningError, SynthesisError` (the `error_types`
business classes). -/
def retryableCls : ExcCls → Bool
  | .clientError | .timeoutError | .connectionError | .osError => true
  | .rateLimitError | .reasoningError | .synthesisError => true
  | _ => false

/- ----------------------------------------------------------------------
Retry handler (src/mvp_orchestrator/retry_handler.py)
---------------------------------------------------------------------- -/

/-- `RetryConfig` (delays are kept for completeness; backoff sleeping and
jitter only affect timing, which is not modelled). -/
structure RetryConfig where
  maxRetries : Nat := 3
  baseDelay : ℚ := 1
  maxDelay : ℚ := 10
  jitterFactor : ℚ := 1/10
  exponentialBase : ℚ := 2
  deriving DecidableEq, Repr

/-- An exception escaping `RetryHandler.execute`: either the
`RetryExhaustedError` wrapper (carrying `last_error` and `attempt_count`)
or a non-retryable exception re-raised unchanged. -/
inductive StageErr where
  | retryExhausted (message : String) (lastError : PyExc) (attemptCount : Nat)
  | raised (e : PyExc)
  deriving DecidableEq, Repr

/-- The message of the `RetryExhaustedError` raised at exhaustion
(`f"Operation {operation_name} failed after {attempt + 1} attempts"`). -/
def exhaustMsg (opName : String) (attempts : Nat) : String :=
  s!"Operation {opName} failed after {attempts} attempts"

/-- The `for attempt in range(max_retries + 1)` loop of
`RetryHandler.execute`.  The operation is modelled as a function from the
0-based attempt index to that invocation's outcome; the second component
counts how many times the operation was invoked.  `remaining` is the number
of attempts still allowed after the current one (the first equation is the
final loop iteration `attempt == max_retries`, the second a non-final one). -/
def retryLoop (opName : String) (op : Nat → Except PyExc α) :
    Nat → Nat → Except StageErr α × Nat
  | attempt, 0 =>
    match op attempt with
    | .ok v => (.ok v, 1)
    | .error e =>
      if retryableCls e.cls then
        (.error (.retryExhausted (exhaustMsg opName (attempt + 1)) e (attempt + 1)), 1)
      else
        (.error (.raised e), 1)
  | attempt, r + 1 =>
    match op attempt with
    | .ok v => (.ok v, 1)
    | .error e =>
      if retryableCls e.cls then
        let rest := retryLoop opName op (attempt + 1) r
        (rest.1, rest.2 + 1)
      else
        (.error (.raised e), 1)

/-- `RetryHandler.execute`: up to `max_retries + 1` attempts. -/
def retryExecute (cfg : RetryConfig) (opName : String)
    (op : Nat → Except PyExc α) : Except StageErr α × Nat :=
  retryLoop opName op 0 cfg.maxRetries

/- ----------------------------------------------------------------------
Result and history types (src/mvp_orchestrator/response_types.py)
---------------------------------------------------------------------- -/

/-- `ReasoningOutput` dataclass. -/
structure ReasoningOutput where
  thoughts : List String
  reasoning : String
  metadata : List (String × String) := []
  deriving DecidableEq, Repr

/-- `SynthesisOutput` dataclass. -/
structure SynthesisOutput where
  code : String
  explanation : Option String := none
  metadata : List (String × String) := []
  deriving DecidableEq, Repr

/-- `ErrorDetails` dataclass (the creation timestamp is not modelled). -/
structure ErrorInfo where
  type : String
  message : String
  details : Option (List (String × String)) := none
  deriving DecidableEq, Repr

/-- `OrchestrationResult` dataclass (timestamp and the free-form `metadata`
dict, which only carries timing/context information, are not modelled). -/
structure OrchestrationResult where
  success : Bool
  code : Option String := none
  reasoning : Option ReasoningOutput := none
  synthesis : Option SynthesisOutput := none
  error : Option ErrorInfo := none
  deriving DecidableEq, Repr

/-- `OrchestrationResult.error_result`. -/
def OrchestrationResult.errorResult (t m : String)
    (d : Option (List (String × String))) : OrchestrationResult :=
  { success := false, error := some ⟨t, m, d⟩ }

/-- `OrchestrationResult.success_result`. -/
def OrchestrationResult.successResult (code : String) (r : ReasoningOutput)
    (s : SynthesisOutput) : OrchestrationResult :=
  { success := true, code := some code, reasoning := some r, synthesis := some s }

/- ----------------------------------------------------------------------
UnifiedOrchestrator.process_query
(src/mvp_orchestrator/enhanced_orchestrator.py lines 228–350)
---------------------------------------------------------------------- -/

/-- The dict returned by the reasoning stage, as read by `process_query`
via `.get('thoughts', [])`, `.get('reasoning', '')`, `.get('metadata', {})`;
`none` models an absent key. -/
structure RDict where
  thoughts : Option (List String) := none
  reasoning : Option String := none
  metadata : Option (List (String × String)) := none
  deriving DecidableEq, Repr

/-- The dict returned by the synthesis stage.  `code_completion` is read by
direct indexing and is guaranteed present by
`ClaudeSynthesizer._validate_result_structure`, so it is a total field;
`explanation = none` models an absent key. -/
structure SDict where
  codeCompletion : String
  explanation : Option String := none
  metadata : Option (List (String × String)) := none
  deriving DecidableEq, Repr

/-- The classes caught by process_query's
`except (RateLimitError, ReasoningError, SynthesisError, ValidationError,
SandboxError)` clause (line 328).  Because `enhanced_orchestrator.py`
re-declares `ReasoningError` and `SynthesisError` at module level
(lines 97–107), those two names resolve to the local classes there, not to
the `error_types` classes that the pipeline actually raises. -/
def businessCaught : ExcCls → Bool
  | .rateLimitError | .localReasoningError | .localSynthesisError
  | .validationError | .sandboxError => true
  | _ => false

/-- `UnifiedOrchestrator.process_query`.  The two stages are invoked through
`self.retry_handler.execute`; their per-attempt behaviours enter as `rBeh`
and `sBeh`.  The result type `Except StageErr _` leaves room for an
exception to propagate out of the method; the `try/except` chain of the
source (lines 244–350) is mirrored by the final `match`. -/
def processQuery (cfg : RetryConfig) (query : String)
    (rBeh : Nat → Except PyExc RDict) (sBeh : Nat → Except PyExc SDict) :
    Except StageErr OrchestrationResult :=
  if pyStrip query = "" then
    .ok (.errorResult "ValidationError" "Query cannot be empty" (some [("query", query)]))
  else
    let body : Except StageErr OrchestrationResult :=
      match (retryExecute cfg "get_reasoning" rBeh).1 with
      | .error se => .error se
      | .ok r =>
        match (retryExecute cfg "generate_code" sBeh).1 with
        | .error se => .error se
        | .ok s =>
          .ok (.successResult s.codeCompletion
            ⟨r.thoughts.getD [], r.reasoning.getD "", r.metadata.getD []⟩
            ⟨s.codeCompletion, s.explanation, s.metadata.getD []⟩)
    match body with
    | .ok res => .ok res
    | .error (.retryExhausted _ last _) =>
      -- `except RetryExhaustedError`: unwrap `e.last_error`, report
      -- `type(original_error).__name__`, `str(original_error)` and
      -- `getattr(original_error, 'details', None)`
      .ok (.errorResult last.cls.name last.msg last.details)
    | .error (.raised e) =>
      if businessCaught e.cls then
        .ok (.errorResult e.cls.name e.msg e.details)
      else
        -- `except Exception`: every remaining exception is reported as
        -- UnexpectedError, so nothing escapes the method
        .ok (.errorResult "UnexpectedError" ("An unexpected error occurred: " ++ e.msg) none)

/- ----------------------------------------------------------------------
History (enhanced_orchestrator.py lines 122, 388–415)
---------------------------------------------------------------------- -/

/-- `HistoryEntry` (timestamp/streaming-flags metadata not modelled). -/
structure HistoryEntry where
  query : String
  result : OrchestrationResult
  deriving DecidableEq, Repr

/-- The orchestrator's mutable state relevant to history. -/
structure OrchestratorState where
  maxHistorySize : Nat := 100
  history : List HistoryEntry := []
  deriving DecidableEq, Repr

/-- `process_query` viewed as a transformer of the orchestrator state: the
method body (lines 228–350) never reads or writes `self.history` — in
particular it contains no call to `_update_history` — so the state comes
back unchanged. -/
def processQueryStep (st : OrchestratorState) (cfg : RetryConfig) (query : String)
    (rBeh : Nat → Except PyExc RDict) (sBeh : Nat → Except PyExc SDict) :
    Except StageErr OrchestrationResult × OrchestratorState :=
  (processQuery cfg query rBeh sBeh, st)

/-- `UnifiedOrchestrator._update_history` (lines 388–402): append, then
`if len(self.history) > max: self.history = self.history[-max:]`.
(Defined in the source but never invoked by `process_query`.) -/
def updateHistory (st : OrchestratorState) (query : String)
    (result : OrchestrationResult) : OrchestratorState :=
  let h := st.history ++ [⟨query, result⟩]
  if st.maxHistorySize < h.length then
    { st with history := pyTailSlice st.maxHistorySize h }
  else
    { st with history := h }

/-- Python truthiness of an `Optional[int]` (`if limit:`). -/
def pyTruthyInt : Option Int → Bool
  | none => false
  | some v => v != 0

/-- The `entries` local of `get_history` after the optional success
filter. -/
def filteredHistory (st : OrchestratorState) (successOnly : Bool) :
    List HistoryEntry :=
  if successOnly then st.history.filter (fun e => e.result.success)
  else st.history

/-- `UnifiedOrchestrator.get_history` (lines 404–415): `if limit:` is a
truthiness test, so only a non-zero limit triggers the
`entries[-limit:]` slice. -/
def getHistory (st : OrchestratorState) (limit : Option Int)
    (successOnly : Bool) : List HistoryEntry :=
  let entries := filteredHistory st successOnly
  if pyTruthyInt limit then pyDropFrom (-(limit.getD 0)) entries else entries

/- ----------------------------------------------------------------------
Sandbox entry points (enhanced_orchestrator.py lines 157–226)
---------------------------------------------------------------------- -/

/-- The dict produced by `SecureSandbox.quick_execute`, as read by
`run_sandbox` via `.get('success', False)`, `.get('output')`,
`.get('error')`. -/
structure SandboxDict where
  success : Bool := false
  output : Option String := none
  error : Option String := none
  deriving DecidableEq, Repr

/-- The dict returned by `run_sandbox` (`execution_time_ms`, a wall-clock
measurement, is not modelled). -/
structure RunSandboxResult where
  success : Bool
  output : Option String
  error : Option String
  deriving DecidableEq, Repr

/-- `UnifiedOrchestrator.execute_code_in_sandbox`: delegate to
`SecureSandbox.quick_execute` (outcome passed in as `quick`), wrapping any
exception in a `SandboxError`. -/
def executeCodeInSandbox (quick : Except PyExc SandboxDict) :
    Except PyExc SandboxDict :=
  match quick with
  | .ok r => .ok r
  | .error e =>
    .error ⟨.sandboxError, "Error executing code in sandbox: " ++ e.msg, some [], none⟩

/-- `UnifiedOrchestrator.run_sandbox`.  The second component counts how
often the sandbox (`SecureSandbox.quick_execute`) was invoked. -/
def runSandbox (code : String) (quick : Except PyExc SandboxDict) :
    Except PyExc RunSandboxResult × Nat :=
  if code = "" || pyStrip code = "" then
    (.ok ⟨false, none, some "Code cannot be empty"⟩, 0)
  else
    match executeCodeInSandbox quick with
    | .ok er => (.ok ⟨er.success, er.output, er.error⟩, 1)
    | .error e => (.ok ⟨false, none, some ("Sandbox execution failed: " ++ e.msg)⟩, 1)

/- ----------------------------------------------------------------------
Rate limiters (src/gemini_integration/rate_limiter.py and the near-copy in
src/claude_integration/claude_client.py lines 44–82)
---------------------------------------------------------------------- -/

/-- The token-bucket state shared by both `RateLimiter` classes. -/
structure RLState where
  rate : ℚ
  burstLimit : ℚ
  tokens : ℚ
  lastUpdate : ℚ
  deriving DecidableEq, Repr

/-- `RateLimiter.__init__` (identical in both copies): `rate =
rate_per_minute / 60`, `tokens = burst_limit`, `last_update = now`.  The
constructor contains no validation whatsoever, so it never raises — hence
the result is always `.ok`. -/
def rateLimiterInit (ratePerMinute burstLimit now : ℚ) : Except PyExc RLState :=
  .ok ⟨ratePerMinute / 60, burstLimit, burstLimit, now⟩

/-- `RateLimiter._update_tokens` (gemini copy): replenish by elapsed time,
capped at `burst_limit`. -/
def rlUpdateTokens (s : RLState) (now : ℚ) : ℚ × RLState :=
  let t := min s.burstLimit (s.tokens + (now - s.lastUpdate) * s.rate)
  (t, ⟨s.rate, s.burstLimit, t, now⟩)

/-- `RateLimiter.acquire` of `gemini_integration/rate_limiter.py`: consume
a token and return `True` if one is available, otherwise return `False`
immediately — it does not wait.  (The logging call in the `False` branch,
modelled as a no-op, additionally awaits `get_retry_after()` while the
non-reentrant lock is still held.) -/
def geminiAcquire (s : RLState) (now : ℚ) : Bool × RLState :=
  let (t, s1) := rlUpdateTokens s now
  if 1 ≤ t then (true, ⟨s1.rate, s1.burstLimit, t - 1, s1.lastUpdate⟩)
  else (false, s1)

/-- `RateLimiter.get_retry_after` (gemini copy). -/
def rlGetRetryAfter (s : RLState) (now : ℚ) : ℚ :=
  let (t, _) := rlUpdateTokens s now
  if 1 ≤ t then 0 else (1 - t) / s.rate

/-- `RateLimiter.acquire` of `claude_integration/claude_client.py`
(lines 54–74): loop — replenish; if a token is available consume it and
return `True`; otherwise sleep `(1 - tokens) / rate` and re-check.  The
sleep advances the explicit virtual clock; `fuel` bounds the number of
loop iterations, with `none` meaning the loop did not finish within the
fuel.  On success the result carries the virtual time at which the call
returned together with the new state. -/
def claudeAcquireLoop : Nat → RLState → ℚ → Option (ℚ × RLState)
  | 0, _, _ => none
  | fuel + 1, s, now =>
    let t := min s.burstLimit (s.tokens + (now - s.lastUpdate) * s.rate)
    if 1 ≤ t then some (now, ⟨s.rate, s.burstLimit, t - 1, now⟩)
    else
      let wait := (1 - t) / s.rate
      claudeAcquireLoop fuel ⟨s.rate, s.burstLimit, t, now⟩ (now + wait)

/- ----------------------------------------------------------------------
Provider clients — outbound-call counting
(src/gemini_integration/gemini_client.py `GeminiReasoner.get_reasoning`,
src/claude_integration/claude_client.py `ClaudeSynthesizer.generate_code`)
---------------------------------------------------------------------- -/

/-- `GeminiReasoner.get_reasoning` with the outbound call counted.
`callResult` is the combined outcome of the single
`model.generate_content_async` call and the subsequent response
cleaning/validation/parsing (which performs no further outbound calls).
The method has no retry of its own.  (In the rate-limited branch the
source passes `self.rate_limiter.get_retry_after()` — an unawaited
coroutine — as `retry_after`; the value is modelled by `rlGetRetryAfter`.) -/
def geminiGetReasoning (query : String) (rl : RLState) (now : ℚ)
    (callResult : Except PyExc α) : Except PyExc α × Nat × RLState :=
  if query = "" then
    (.error ⟨.validationError, "Query cannot be empty", some [], none⟩, 0, rl)
  else
    let (granted, rl1) := geminiAcquire rl now
    if granted then (callResult, 1, rl1)
    else
      (.error ⟨.rateLimitError, "Rate limit exceeded for Gemini API",
        some [], some (rlGetRetryAfter rl1 now)⟩, 0, rl1)

/-- The configuration flags of `ClaudeConfig` relevant to control flow. -/
structure ClaudeCfg where
  streamResponse : Bool := false
  deriving DecidableEq, Repr

/-- `ClaudeSynthesizer._validate_result_structure`: both required keys
present and `code_completion` non-empty (`code_completion` is a total
field of `SDict`, `explanation = none` models the key being absent). -/
def validateResultStructure (r : SDict) : Bool :=
  r.explanation.isSome && r.codeCompletion != ""

/-- `_handle_streaming_response` / `_handle_regular_response`: both wrap
every exception escaping them in a `ClaudeAPIError("Failed to handle ...
response: ...")` (their trailing `except Exception` clauses), so the
outcome of an outbound call as seen by `generate_code` is never a
`RateLimitError` or `ConnectionError`. -/
def claudeHandlerResult (r : Except PyExc SDict) (which : String) :
    Except PyExc SDict :=
  match r with
  | .ok v => .ok v
  | .error e =>
    .error ⟨.claudeAPIError, "Failed to handle " ++ which ++ " response: " ++ e.msg,
      some [], none⟩

/-- One attempt of the body of `ClaudeSynthesizer.generate_code`:
rate-limit acquire (the claude `acquire` blocks until it can return
`True`, so the `raise RateLimitError` branch is never taken), then either
the streaming call — falling back to a second, non-streaming call if it
fails — or a single regular call, then result-structure validation, with
the method's `except` chain re-raising `RateLimitError` and wrapping every
other exception in `ClaudeAPIError("Failed to generate code: ...")`.
`streamResp` / `regResp` are the raw outcomes of the respective outbound
calls (including their response parsing); the `Nat` counts outbound calls.
`none` means the attempt blocked in `acquire` beyond the fuel. -/
def claudeAttempt (cfg : ClaudeCfg) (rl : RLState) (now : ℚ)
    (streamResp regResp : Except PyExc SDict) :
    Option (Except PyExc SDict × Nat × RLState) :=
  match claudeAcquireLoop 2 rl now with
  | none => none
  | some (_, rl1) =>
    let run : Except PyExc SDict × Nat :=
      if cfg.streamResponse then
        match claudeHandlerResult streamResp "streaming" with
        | .ok v => (.ok v, 1)
        | .error _ => (claudeHandlerResult regResp "regular", 2)   -- non-streaming fallback
      else (claudeHandlerResult regResp "regular", 1)
    match run with
    | (.ok v, calls) =>
      if validateResultStructure v then some (.ok v, calls, rl1)
      else some (.error ⟨.claudeAPIError,
        "Failed to generate code: Invalid response structure from Claude",
        some [], none⟩, calls, rl1)
    | (.error e, calls) =>
      if e.cls = .rateLimitError then some (.error e, calls, rl1)
      else some (.error ⟨.claudeAPIError, "Failed to generate code: " ++ e.msg,
        some [], none⟩, calls, rl1)

/-- The `tenacity` `@retry(retry_if_exception_type((RateLimitError,
ConnectionError)), stop_after_attempt(3))` decorator on `generate_code`:
re-run the whole attempt while it raises one of the two retryable classes,
up to `attemptsLeft` attempts in total, accumulating the outbound-call
count (`acc`); when the last allowed attempt still raises a retryable
error, tenacity raises its own `RetryError` wrapper.  Backoff waiting
between attempts affects only timing and is not modelled. -/
def claudeTenacity : Nat → (RLState → Option (Except PyExc SDict × Nat × RLState)) →
    RLState → Nat → Option (Except PyExc SDict × Nat × RLState)
  | 0, _, _, _ => none
  | n + 1, step, rl, acc =>
    match step rl with
    | none => none
    | some (.ok v, calls, rl1) => some (.ok v, acc + calls, rl1)
    | some (.error e, calls, rl1) =>
      if e.cls = .rateLimitError ∨ e.cls = .connectionError then
        match n with
        | 0 => some (.error ⟨.otherError "RetryError", "RetryError", none, none⟩,
            acc + calls, rl1)
        | m + 1 => claudeTenacity (m + 1) step rl1 (acc + calls)
      else some (.error e, acc + calls, rl1)

/-- `ClaudeSynthesizer.generate_code`: the tenacity-decorated method. -/
def claudeGenerateCode (cfg : ClaudeCfg) (rl : RLState) (now : ℚ)
    (streamResp regResp : Except PyExc SDict) :
    Option (Except PyExc SDict × Nat × RLState) :=
  claudeTenacity 3 (fun st => claudeAttempt cfg st now streamResp regResp) rl 0

/- ----------------------------------------------------------------------
XML documents and element extraction.  The lxml parser itself is an
external library; a parse step enters the model as an explicit function
`String → Except PyExc Xml` (the outcome of `etree.parse`/`etree.fromstring`
with `recover=True` on the given content).  Everything after parsing —
element lookup, text extraction, the recovery chain — is embedded from the
source.
---------------------------------------------------------------------- -/

/-- An XML element: tag, attributes, text content, children. -/
inductive Xml where
  | elem (tag : String) (attrs : List (String × String)) (text : Option String)
      (children : List Xml)

/-- The element's tag. -/
def Xml.tag : Xml → String
  | .elem t _ _ _ => t

/-- The element's text (`None` when absent). -/
def Xml.text : Xml → Option String
  | .elem _ _ tx _ => tx

/-- The element's children. -/
def Xml.children : Xml → List Xml
  | .elem _ _ _ ch => ch

/-- `element.get(key)`. -/
def Xml.attr (x : Xml) (k : String) : Option String :=
  match x with
  | .elem _ a _ _ => a.lookup k

mutual
/-- All strict descendants of an element, in document order. -/
def xmlDesc : Xml → List Xml
  | .elem _ _ _ ch => xmlDescList ch
/-- Descendants helper over a child list. -/
def xmlDescList : List Xml → List Xml
  | [] => []
  | c :: cs => c :: (xmlDesc c ++ xmlDescList cs)
end

/-- `findall('.//tag')`. -/
def xmlFindAllDesc (x : Xml) (tag : String) : List Xml :=
  (xmlDesc x).filter (fun c => c.tag == tag)

/-- `find('.//tag')`. -/
def xmlFindDesc (x : Xml) (tag : String) : Option Xml :=
  (xmlFindAllDesc x tag).head?

/-- `findall('tag')` (direct children). -/
def xmlChildrenTag (x : Xml) (tag : String) : List Xml :=
  x.children.filter (fun c => c.tag == tag)

/-- `find('tag')` (first direct child). -/
def xmlFindChild (x : Xml) (tag : String) : Option Xml :=
  (xmlChildrenTag x tag).head?

/-- `findtext('tag')`. -/
def xmlFindText (x : Xml) (tag : String) : Option String :=
  (xmlFindChild x tag).bind Xml.text

/-- `if el.text and el.text.strip(): collect el.text.strip()` applied to a
list of elements (the per-`item` loop of the section extractors). -/
def itemTexts (items : List Xml) : List String :=
  items.filterMap fun it =>
    match it.text with
    | none => none
    | some t => if t != "" && pyStrip t != "" then some (pyStrip t) else none

/- ----------------------------------------------------------------------
GeminiXMLProcessor (src/gemini_integration/xml_processor.py)
---------------------------------------------------------------------- -/

/-- The `sandbox_requirements` dict built by
`GeminiXMLProcessor._extract_sandbox_config`. -/
structure SandboxReq where
  template : Option String := none
  dependencies : Option (List String) := none
  deriving DecidableEq, Repr

/-- `GeminiXMLProcessor._extract_sandbox_config`. -/
def extractSandboxConfig (el : Xml) : SandboxReq :=
  let template :=
    match xmlFindText el "template" with
    | some t => if t != "" then some (pyStrip t) else none
    | none => none
  let deps :=
    match xmlFindChild el "dependencies" with
    | none => none
    | some d =>
      let pkgs := itemTexts (xmlChildrenTag d "package")
      if pkgs != [] then some pkgs else none
  ⟨template, deps⟩

/-- `_extract_metadata`: `findall('item')`, keeping items with a truthy
`key` attribute and truthy text. -/
def extractMetadata (el : Xml) : List (String × String) :=
  (xmlChildrenTag el "item").filterMap fun it =>
    match it.attr "key", it.text with
    | some k, some t => if k != "" && t != "" then some (k, pyStrip t) else none
    | _, _ => none

/-- The result dict of `GeminiXMLProcessor.validate_and_process`.  The
`thoughts` key is only present in the main-path dict (initialised to `[]`
at line 144); the recovery and fallback dicts omit it in the source, which
is modelled as `[]`. -/
structure GemDict where
  technicalRequirements : List String
  implementationStrategy : List String
  guidanceForClaude : List String
  sandboxRequirements : Option SandboxReq := none
  metadata : List (String × String) := []
  thoughts : List String := []
  deriving DecidableEq, Repr

/-- Extraction of one `.//section/item` list (lines 151–163). -/
def geminiExtractItems (root : Xml) (sec : String) : List String :=
  itemTexts ((xmlFindAllDesc root sec).flatMap (fun p => xmlChildrenTag p "item"))

/-- The component-extraction block of `validate_and_process`
(lines 138–173). -/
def geminiExtract (root : Xml) : GemDict :=
  { technicalRequirements := geminiExtractItems root "technical_requirements"
    implementationStrategy := geminiExtractItems root "implementation_strategy"
    guidanceForClaude := geminiExtractItems root "guidance_for_claude"
    sandboxRequirements := (xmlFindDesc root "sandbox_requirements").map extractSandboxConfig
    metadata :=
      match xmlFindDesc root "metadata" with
      | some m => extractMetadata m
      | none => []
    thoughts := [] }

/-- Remove control characters (`char >= ' ' or char in '\n\r\t'`). -/
def removeCtrlChars (s : String) : String :=
  String.mk (s.data.filter fun c => c ≥ ' ' || c ∈ ['\n', '\r', '\t'])

/-- Apply `str.replace` substitutions in order (Python dicts preserve
insertion order). -/
def applyReplacements (s : String) (rs : List (String × String)) : String :=
  rs.foldl (fun acc p => strReplace acc p.1 p.2) s

/-- `GeminiXMLProcessor._clean_xml_content` (lines 249–267). -/
def geminiCleanXml (s : String) : String :=
  pyStrip (applyReplacements (removeCtrlChars s)
    [("&", "&amp;"), ("<br>", "\n"), ("</br>", ""), ("...", "…"),
     ("<<", "<"), (">>", ">")])

/-- Approximation of Python `str.isprintable()` on the relevant (ASCII)
range: codepoint at least 32 and not DEL. -/
def pyIsPrintableApprox (c : Char) : Bool :=
  (c ≥ ' ' && c.val != 127) || c ∈ ['\n', '\r', '\t']

/-- The HTML-comment removal loop of `_aggressive_clean` (lines 238–241),
fuelled for termination (each cut is `content[:start] + content[end:]`
with Python's `find` results). -/
def aggressiveCleanComments : Nat → String → String
  | 0, s => s
  | fuel + 1, s =>
    if hasSub s "<!--" && hasSub s "-->" then
      let a := (strFind s "<!--").getD 0
      let b := (strFind s "-->").getD 0 + 3
      aggressiveCleanComments fuel (pySubstr s 0 a ++ String.mk (s.data.drop b))
    else s

/-- `GeminiXMLProcessor._aggressive_clean` (lines 214–247).  Note the
`'--' → '—'` substitution runs before the comment-removal loop, so any
literal `<!--` has already been rewritten by the time that loop looks for
it. -/
def geminiAggressiveClean (s : String) : String :=
  let s1 := String.mk (s.data.filter pyIsPrintableApprox)
  let s2 := applyReplacements s1
    [("&", "&amp;"), ("<br>", "\n"), ("</br>", ""), ("...", "…"),
     ("<<", "<"), (">>", ">"), ("--", "—"), ("<p>", ""), ("</p>", "\n"),
     ("<div>", ""), ("</div>", "\n")]
  let s3 := aggressiveCleanComments s2.length s2
  let s4 :=
    if hasSub s3 "<reasoning" then s3
    else "<reasoning version=\"2.0.0\">" ++ s3 ++ "</reasoning>"
  pyStrip s4

/-- Markdown code-fence removal shared by both processors: under the
`startswith`/`endswith` guards, `replace('```xml', '', 1)` removes the
leading marker and `rsplit('```', 1)[0]` everything from the last
marker on. -/
def stripMarkdownFence (s : String) : String :=
  let c1 := if strStarts s "```xml" then pyStrip (String.mk (s.data.drop 6)) else s
  if strEnds c1 "```" then pyStrip (pyRSplitHead c1 "```") else c1

/-- `xml_content[xml_content.find('?>') + 2:].lstrip()`; when `'?>'` is
absent Python's `find` returns `-1`, making the slice start at index 1. -/
def dropXmlDecl (s : String) : String :=
  match strFind s "?>" with
  | some i => pyLStrip (String.mk (s.data.drop (i + 2)))
  | none => pyLStrip (String.mk (s.data.drop 1))

/-- The cleanup pipeline of `GeminiXMLProcessor.validate_and_process`
before the first parse (lines 81–109): strip, fence removal, declaration
removal, root wrapping, character cleaning. -/
def geminiCleanedContent (raw : String) : String :=
  let c0 := pyStrip raw
  let c2 := stripMarkdownFence c0
  let c3 := if strStarts c2 "<?xml" then dropXmlDecl c2 else c2
  let c4 :=
    if strStarts (pyLStrip c3) "<reasoning" then c3
    else "<reasoning version=\"2.0.0\">" ++ c3 ++ "</reasoning>"
  geminiCleanXml c4

/-- `_basic_string_recovery`'s per-section substring extraction
(`section.split('<item>')`, keeping text before each `</item>`). -/
def recoverSection (content startTag endTag : String) : List String :=
  if hasSub content startTag && hasSub content endTag then
    let i := (strFind content startTag).getD 0 + startTag.length
    let j := (strFind content endTag).getD 0
    let sec := pySubstr content i j
    (strSplitOn sec "<item>").filterMap fun item =>
      if hasSub item "</item>" then
        let t := pyStrip (pySubstr item 0 ((strFind item "</item>").getD 0))
        if t != "" then some t else none
      else none
  else []

/-- Python truthiness of the recovered `sandbox_requirements` value
(`None` and the empty dict are falsy). -/
def sandboxTruthy : Option SandboxReq → Bool
  | none => false
  | some s => s.template.isSome || s.dependencies.isSome

/-- `GeminiXMLProcessor._basic_string_recovery` (lines 298–374).
`sandboxFromString` models the strict `etree.fromstring` of the
`<sandbox_requirements>` fragment followed by `_extract_sandbox_config`
(`none` = that step raised, leaving the field `None`).  Returns `none`
when nothing truthy was recovered (`any(result.values())` is false — the
`metadata` value is always the empty, falsy dict here). -/
def geminiBasicStringRecovery (content : String)
    (sandboxFromString : String → Option SandboxReq) : Option GemDict :=
  let tech := recoverSection content "<technical_requirements>" "</technical_requirements>"
  let impl := recoverSection content "<implementation_strategy>" "</implementation_strategy>"
  let guid := recoverSection content "<guidance_for_claude>" "</guidance_for_claude>"
  let sandbox :=
    if hasSub content "<sandbox_requirements>" && hasSub content "</sandbox_requirements>" then
      let frag := pySubstr content ((strFind content "<sandbox_requirements>").getD 0)
        ((strFind content "</sandbox_requirements>").getD 0 + "</sandbox_requirements>".length)
      sandboxFromString frag
    else none
  if tech != [] || impl != [] || guid != [] || sandboxTruthy sandbox then
    some ⟨tech, impl, guid, sandbox, [], []⟩
  else none

/-- The dict `GeminiXMLProcessor._process_fallback` actually returns
(lines 376–393): the template path always raises — the class defines no
`_process_valid_xml` method, and the fallback template string still starts
with an encoding declaration — so control reaches the hard-coded `except`
dict.  The `'error'` entry holds `str(e)`, whose exact wording depends on
the XML library; it is modelled by a fixed placeholder. -/
def geminiFallbackDict : GemDict :=
  { technicalRequirements := ["Unable to process Gemini output"]
    implementationStrategy := ["Using fallback implementation"]
    guidanceForClaude := ["Generate minimal working code"]
    sandboxRequirements := none
    metadata := [("error", "fallback template processing failed")]
    thoughts := [] }

/-- `GeminiXMLProcessor._process_with_recovery` (lines 269–296). -/
def geminiProcessWithRecovery (content : String)
    (sandboxFromString : String → Option SandboxReq) : GemDict :=
  match geminiBasicStringRecovery content sandboxFromString with
  | some r => r
  | none => geminiFallbackDict

/-- `GeminiXMLProcessor.validate_and_process` (lines 55–212).  `xmlParse`
models the recovering `etree.parse`; a first-parse failure triggers
`_aggressive_clean` and a re-parse (lines 124–134); a second failure, or
extraction yielding neither required section, routes to
`_process_with_recovery` when `allowRecovery` is set, and otherwise to the
outer `except` clauses (which wrap everything in `XMLProcessingError`). -/
def geminiValidateAndProcess (raw : String)
    (xmlParse : String → Except PyExc Xml)
    (sandboxFromString : String → Option SandboxReq)
    (allowRecovery : Bool) : Except PyExc GemDict :=
  let c := geminiCleanedContent raw
  match xmlParse c with
  | .ok root =>
    let result := geminiExtract root
    if result.technicalRequirements = [] ∧ result.implementationStrategy = [] then
      if allowRecovery then .ok (geminiProcessWithRecovery c sandboxFromString)
      else .error ⟨.xmlProcessingError, "Failed to process XML",
        some [("error", "Missing required sections")], none⟩
    else .ok result
  | .error _ =>
    let c2 := geminiAggressiveClean c
    match xmlParse c2 with
    | .ok root =>
      let result := geminiExtract root
      if result.technicalRequirements = [] ∧ result.implementationStrategy = [] then
        if allowRecovery then .ok (geminiProcessWithRecovery c2 sandboxFromString)
        else .error ⟨.xmlProcessingError, "Failed to process XML",
          some [("error", "Missing required sections")], none⟩
      else .ok result
    | .error e2 =>
      if allowRecovery then .ok (geminiProcessWithRecovery c2 sandboxFromString)
      else if e2.cls = .xmlSyntaxError then
        .error ⟨.xmlProcessingError, "Failed to parse XML", some [("error", e2.msg)], none⟩
      else
        .error ⟨.xmlProcessingError, "Failed to process XML", some [("error", e2.msg)], none⟩

/- ----------------------------------------------------------------------
ClaudeXMLValidator (src/claude_integration/xml_validator.py)
---------------------------------------------------------------------- -/

/-- The result dict of `ClaudeXMLValidator.validate_and_process`. -/
structure ClaudeDict where
  codeCompletion : Option String
  explanation : Option String := none
  metadata : List (String × String) := []
  deriving DecidableEq, Repr

/-- `ClaudeXMLValidator._clean_xml_content` (lines 344–363); unlike the
gemini version it does not strip the result (and its ellipsis replacement
target is the mojibake `'â€¦'` literal of the source). -/
def claudeCleanXml (s : String) : String :=
  let s1 := removeCtrlChars s
  let s2 := applyReplacements s1
    [("&", "&amp;"), ("<br>", "\n"), ("</br>", ""), ("...", "â€¦")]
  strReplace (strReplace s2 "<<" "<") ">>" ">"

/-- The cleanup pipeline of `ClaudeXMLValidator.validate_and_process`
before the first parse (lines 64–94). -/
def claudeCleanedContent (raw : String) : String :=
  let c0 := pyStrip raw
  let c2 := stripMarkdownFence c0
  let c3 := if strStarts c2 "<?xml" then dropXmlDecl c2 else c2
  if strStarts (pyLStrip c3) "<synthesis" then c3
  else "<synthesis version=\"2.0.0\">" ++ c3 ++ "</synthesis>"

/-- `ClaudeXMLValidator._get_element_text` with XPath `.//tag`: the first
matching descendant's text, stripped, provided the raw text is truthy. -/
def claudeGetElementText (root : Xml) (tag : String) : Option String :=
  match xmlFindDesc root tag with
  | some el =>
    match el.text with
    | some t => if t != "" then some (pyStrip t) else none
    | none => none
  | none => none

/-- `ClaudeXMLValidator._get_metadata` (XPath `.//metadata/item`). -/
def claudeGetMetadata (root : Xml) : List (String × String) :=
  ((xmlFindAllDesc root "metadata").flatMap (fun m => xmlChildrenTag m "item")).filterMap
    fun it =>
      match it.attr "key", it.text with
      | some k, some t => if k != "" && t != "" then some (k, pyStrip t) else none
      | _, _ => none

/-- `ClaudeXMLValidator.validate_and_process` (lines 50–171).  A falsy
extracted `code_completion` raises `XMLProcessingError('Missing code
completion')` (line 145), which the method's own outer `except Exception`
immediately re-wraps as `XMLProcessingError('Failed to process XML',
{'error': str(e)})` — no recovery or fallback is ever invoked here: the
`_process_with_recovery` / `_process_fallback` helpers of this class have
no caller inside `validate_and_process`. -/
def claudeValidateAndProcess (raw : String)
    (xmlParse : String → Except PyExc Xml) : Except PyExc ClaudeDict :=
  if raw = "" then
    .error ⟨.xmlProcessingError, "Failed to process empty XML content", some [], none⟩
  else
    let c := claudeCleanedContent raw
    let parsed : Except PyExc Xml :=
      match xmlParse c with
      | .ok root => .ok root
      | .error _ => xmlParse (claudeCleanXml c)
    match parsed with
    | .ok root =>
      let result : ClaudeDict :=
        ⟨claudeGetElementText root "code_completion",
         claudeGetElementText root "explanation",
         claudeGetMetadata root⟩
      match result.codeCompletion with
      | some t =>
        if t = "" then
          .error ⟨.xmlProcessingError, "Failed to process XML",
            some [("error", "Missing code completion")], none⟩
        else .ok result
      | none =>
        .error ⟨.xmlProcessingError, "Failed to process XML",
          some [("error", "Missing code completion")], none⟩
    | .error e =>
      if e.cls = .xmlSyntaxError then
        .error ⟨.xmlProcessingError, "Failed to parse XML", some [("error", e.msg)], none⟩
      else
        .error ⟨.xmlProcessingError, "Failed to process XML", some [("error", e.msg)], none⟩

/- ======================================================================
THEOREMS
====================================================================== -/

/- helper lemmas about the retry loop -/

lemma retryLoop_ok_shift (opName : String) (op : Nat → Except PyExc α)
    (K : Nat) (v : α) :
    ∀ (a r : Nat), K ≤ r →
      (∀ i, i < K → ∃ e, op (a + i) = Except.error e ∧ retryableCls e.cls = true) →
      op (a + K) = Except.ok v →
      retryLoop opName op a r = (Except.ok v, K + 1) := by
  induction K with
  | zero =>
    intro a r _ _ hOk
    simp only [Nat.add_zero] at hOk
    cases r with
    | zero => simp [retryLoop, hOk]
    | succ r' => simp [retryLoop, hOk]
  | succ k ih =>
    intro a r hle hFail hOk
    obtain ⟨e0, he0, hr0⟩ := hFail 0 (Nat.succ_pos k)
    simp only [Nat.add_zero] at he0
    obtain ⟨r', rfl⟩ : ∃ r', r = r' + 1 := by
      cases r with
      | zero => omega
      | succ r' => exact ⟨r', rfl⟩
    have hrec := ih (a + 1) r' (by omega)
      (fun i hi => by
        have := hFail (i + 1) (by omega)
        simpa [Nat.add_assoc, Nat.add_comm 1 i] using this)
      (by simpa [Nat.add_assoc, Nat.add_comm 1 k] using hOk)
    simp [retryLoop, he0, hr0, hrec]

lemma retryLoop_all_fail (opName : String) (op : Nat → Except PyExc α)
    (e : Nat → PyExc)
    (hAll : ∀ i, op i = Except.error (e i))
    (hRet : ∀ i, retryableCls (e i).cls = true) :
    ∀ (r a : Nat),
      retryLoop opName op a r =
        (Except.error (.retryExhausted (exhaustMsg opName (a + r + 1)) (e (a + r)) (a + r + 1)),
         r + 1) := by
  intro r
  induction r with
  | zero => intro a; simp [retryLoop, hAll a, hRet a]
  | succ r' ih =>
    intro a
    have h := ih (a + 1)
    have h1 : a + 1 + r' = a + (r' + 1) := by omega
    simp only [retryLoop, hAll a, hRet a, if_true, h, h1]

/-- C3: `RetryHandler.execute` (i) returns the operation's result after
exactly `K + 1` invocations when the operation raises a retryable error on
its first `K ≤ max_retries` invocations and then succeeds, (ii) raises
`RetryExhaustedError` with `last_error` the final error and
`attempt_count = max_retries + 1` when every attempt raises a retryable
error, and (iii) invokes an operation that raises a non-retryable error
exactly once, propagating that error unwrapped. -/
theorem retry_execute_contract (cfg : RetryConfig) (opName : String) :
    (∀ (α : Type) (op : Nat → Except PyExc α) (K : Nat) (v : α),
      K ≤ cfg.maxRetries →
      (∀ i, i < K → ∃ e, op i = Except.error e ∧ retryableCls e.cls = true) →
      op K = Except.ok v →
      retryExecute cfg opName op = (Except.ok v, K + 1)) ∧
    (∀ (α : Type) (op : Nat → Except PyExc α) (e : Nat → PyExc),
      (∀ i, op i = Except.error (e i)) →
      (∀ i, retryableCls (e i).cls = true) →
      retryExecute cfg opName op =
        (Except.error (StageErr.retryExhausted (exhaustMsg opName (cfg.maxRetries + 1))
          (e cfg.maxRetries) (cfg.maxRetries + 1)), cfg.maxRetries + 1)) ∧
    (∀ (α : Type) (op : Nat → Except PyExc α) (e : PyExc),
      op 0 = Except.error e → retryableCls e.cls = false →
      retryExecute cfg opName op = (Except.error (StageErr.raised e), 1)) := by
  refine ⟨?_, ?_, ?_⟩
  · intro α op K v hK hFail hOk
    have h := retryLoop_ok_shift opName op K v 0 cfg.maxRetries hK
      (by simpa using hFail) (by simpa using hOk)
    simpa [retryExecute] using h
  · intro α op e hAll hRet
    have h := retryLoop_all_fail opName op e hAll hRet cfg.maxRetries 0
    simpa [retryExecute] using h
  · intro α op e h0 hnr
    cases hm : cfg.maxRetries with
    | zero => simp [retryExecute, hm, retryLoop, h0, hnr]
    | succ m => simp [retryExecute, hm, retryLoop, h0, hnr]

/-- Witness for `retry_execute_contract`: with `max_retries = 2`, an
operation failing retryably once then succeeding is invoked twice; one
failing always exhausts after 3 attempts; a non-retryable failure is
invoked once. -/
theorem retry_execute_contract_witness :
    retryExecute ⟨2, 1, 10, 1/10, 2⟩ "op"
      (fun i => if i < 1 then Except.error ⟨ExcCls.rateLimitError, "rl", none, none⟩
                else Except.ok (42 : Nat)) = (Except.ok 42, 2) ∧
    retryExecute ⟨2, 1, 10, 1/10, 2⟩ "op"
      (fun _ => (Except.error ⟨ExcCls.reasoningError, "bad", some [], none⟩ :
        Except PyExc Nat)) =
      (Except.error (StageErr.retryExhausted (exhaustMsg "op" 3)
        ⟨ExcCls.reasoningError, "bad", some [], none⟩ 3), 3) ∧
    retryExecute ⟨2, 1, 10, 1/10, 2⟩ "op"
      (fun _ => (Except.error ⟨ExcCls.geminiAPIError, "boom", some [], none⟩ :
        Except PyExc Nat)) =
      (Except.error (StageErr.raised ⟨ExcCls.geminiAPIError, "boom", some [], none⟩), 1) := by
  refine ⟨?_, ?_, ?_⟩
  · exact (retry_execute_contract ⟨2, 1, 10, 1/10, 2⟩ "op").1 Nat _ 1 42 (by decide)
      (fun i hi => ⟨⟨ExcCls.rateLimitError, "rl", none, none⟩,
        by have h0 : i = 0 := by omega
           subst h0; rfl, rfl⟩)
      rfl
  · exact (retry_execute_contract ⟨2, 1, 10, 1/10, 2⟩ "op").2.1 Nat _
      (fun _ => ⟨ExcCls.reasoningError, "bad", some [], none⟩) (fun _ => rfl) (fun _ => rfl)
  · exact (retry_execute_contract ⟨2, 1, 10, 1/10, 2⟩ "op").2.2 Nat _
      ⟨ExcCls.geminiAPIError, "boom", some [], none⟩ rfl rfl

/- helper lemmas: evaluating `processQuery` under given stage outcomes -/

lemma processQuery_empty (cfg : RetryConfig) (query : String)
    (rBeh : Nat → Except PyExc RDict) (sBeh : Nat → Except PyExc SDict)
    (hq : pyStrip query = "") :
    processQuery cfg query rBeh sBeh =
      Except.ok (.errorResult "ValidationError" "Query cannot be empty"
        (some [("query", query)])) := by
  simp [processQuery, hq]

lemma processQuery_r_exhausted (cfg : RetryConfig) (query : String)
    (rBeh : Nat → Except PyExc RDict) (sBeh : Nat → Except PyExc SDict)
    (hq : pyStrip query ≠ "") (m : String) (e : PyExc) (n : Nat)
    (h : (retryExecute cfg "get_reasoning" rBeh).1 =
      Except.error (.retryExhausted m e n)) :
    processQuery cfg query rBeh sBeh =
      Except.ok (.errorResult e.cls.name e.msg e.details) := by
  simp [processQuery, hq, h]

lemma processQuery_r_raised_business (cfg : RetryConfig) (query : String)
    (rBeh : Nat → Except PyExc RDict) (sBeh : Nat → Except PyExc SDict)
    (hq : pyStrip query ≠ "") (e : PyExc)
    (h : (retryExecute cfg "get_reasoning" rBeh).1 = Except.error (.raised e))
    (hb : businessCaught e.cls = true) :
    processQuery cfg query rBeh sBeh =
      Except.ok (.errorResult e.cls.name e.msg e.details) := by
  simp [processQuery, hq, h, hb]

lemma processQuery_r_raised_other (cfg : RetryConfig) (query : String)
    (rBeh : Nat → Except PyExc RDict) (sBeh : Nat → Except PyExc SDict)
    (hq : pyStrip query ≠ "") (e : PyExc)
    (h : (retryExecute cfg "get_reasoning" rBeh).1 = Except.error (.raised e))
    (hb : businessCaught e.cls = false) :
    processQuery cfg query rBeh sBeh =
      Except.ok (.errorResult "UnexpectedError"
        ("An unexpected error occurred: " ++ e.msg) none) := by
  simp [processQuery, hq, h, hb]

lemma processQuery_s_exhausted (cfg : RetryConfig) (query : String)
    (rBeh : Nat → Except PyExc RDict) (sBeh : Nat → Except PyExc SDict)
    (hq : pyStrip query ≠ "") (r : RDict)
    (hr : (retryExecute cfg "get_reasoning" rBeh).1 = Except.ok r)
    (m : String) (e : PyExc) (n : Nat)
    (h : (retryExecute cfg "generate_code" sBeh).1 =
      Except.error (.retryExhausted m e n)) :
    processQuery cfg query rBeh sBeh =
      Except.ok (.errorResult e.cls.name e.msg e.details) := by
  simp [processQuery, hq, hr, h]

lemma processQuery_s_raised_business (cfg : RetryConfig) (query : String)
    (rBeh : Nat → Except PyExc RDict) (sBeh : Nat → Except PyExc SDict)
    (hq : pyStrip query ≠ "") (r : RDict)
    (hr : (retryExecute cfg "get_reasoning" rBeh).1 = Except.ok r) (e : PyExc)
    (h : (retryExecute cfg "generate_code" sBeh).1 = Except.error (.raised e))
    (hb : businessCaught e.cls = true) :
    processQuery cfg query rBeh sBeh =
      Except.ok (.errorResult e.cls.name e.msg e.details) := by
  simp [processQuery, hq, hr, h, hb]

lemma processQuery_s_raised_other (cfg : RetryConfig) (query : String)
    (rBeh : Nat → Except PyExc RDict) (sBeh : Nat → Except PyExc SDict)
    (hq : pyStrip query ≠ "") (r : RDict)
    (hr : (retryExecute cfg "get_reasoning" rBeh).1 = Except.ok r) (e : PyExc)
    (h : (retryExecute cfg "generate_code" sBeh).1 = Except.error (.raised e))
    (hb : businessCaught e.cls = false) :
    processQuery cfg query rBeh sBeh =
      Except.ok (.errorResult "UnexpectedError"
        ("An unexpected error occurred: " ++ e.msg) none) := by
  simp [processQuery, hq, hr, h, hb]

lemma processQuery_both_ok (cfg : RetryConfig) (query : String)
    (rBeh : Nat → Except PyExc RDict) (sBeh : Nat → Except PyExc SDict)
    (hq : pyStrip query ≠ "") (r : RDict) (s : SDict)
    (hr : (retryExecute cfg "get_reasoning" rBeh).1 = Except.ok r)
    (hs : (retryExecute cfg "generate_code" sBeh).1 = Except.ok s) :
    processQuery cfg query rBeh sBeh =
      Except.ok (.successResult s.codeCompletion
        ⟨r.thoughts.getD [], r.reasoning.getD "", r.metadata.getD []⟩
        ⟨s.codeCompletion, s.explanation, s.metadata.getD []⟩) := by
  simp [processQuery, hq, hr, hs]

lemma processQuery_total (cfg : RetryConfig) (query : String)
    (rBeh : Nat → Except PyExc RDict) (sBeh : Nat → Except PyExc SDict) :
    ∃ r, processQuery cfg query rBeh sBeh = Except.ok r := by
  by_cases hq : pyStrip query = ""
  · exact ⟨_, processQuery_empty cfg query rBeh sBeh hq⟩
  · rcases h1 : (retryExecute cfg "get_reasoning" rBeh).1 with se | r
    · rcases se with ⟨m, e, n⟩ | e
      · exact ⟨_, processQuery_r_exhausted cfg query rBeh sBeh hq m e n h1⟩
      · by_cases hb : businessCaught e.cls
        · exact ⟨_, processQuery_r_raised_business cfg query rBeh sBeh hq e h1 hb⟩
        · exact ⟨_, processQuery_r_raised_other cfg query rBeh sBeh hq e h1
            (by simpa using hb)⟩
    · rcases h2 : (retryExecute cfg "generate_code" sBeh).1 with se | s
      · rcases se with ⟨m, e, n⟩ | e
        · exact ⟨_, processQuery_s_exhausted cfg query rBeh sBeh hq r h1 m e n h2⟩
        · by_cases hb : businessCaught e.cls
          · exact ⟨_, processQuery_s_raised_business cfg query rBeh sBeh hq r h1 e h2 hb⟩
          · exact ⟨_, processQuery_s_raised_other cfg query rBeh sBeh hq r h1 e h2
              (by simpa using hb)⟩
      · exact ⟨_, processQuery_both_ok cfg query rBeh sBeh hq r s h1 h2⟩

/-- C4: `process_query` never raises: it always returns a result; an empty
query yields a `ValidationError` failure; a stage whose retries are
exhausted yields a failure tagged with the unwrapped original error's
class name, message and details; a stage exception of one of the classes
in the business `except` tuple yields a failure tagged with its own class
name; any other stage exception yields a failure tagged `UnexpectedError`;
and two successful stages yield a success result. -/
theorem process_query_error_contract (cfg : RetryConfig) (query : String)
    (rBeh : Nat → Except PyExc RDict) (sBeh : Nat → Except PyExc SDict) :
    (∃ r, processQuery cfg query rBeh sBeh = Except.ok r) ∧
    (pyStrip query = "" →
      processQuery cfg query rBeh sBeh =
        Except.ok (.errorResult "ValidationError" "Query cannot be empty"
          (some [("query", query)]))) ∧
    (pyStrip query ≠ "" →
      (∀ m e n, (retryExecute cfg "get_reasoning" rBeh).1 =
          Except.error (.retryExhausted m e n) →
        processQuery cfg query rBeh sBeh =
          Except.ok (.errorResult e.cls.name e.msg e.details)) ∧
      (∀ e, (retryExecute cfg "get_reasoning" rBeh).1 = Except.error (.raised e) →
        businessCaught e.cls = true →
        processQuery cfg query rBeh sBeh =
          Except.ok (.errorResult e.cls.name e.msg e.details)) ∧
      (∀ e, (retryExecute cfg "get_reasoning" rBeh).1 = Except.error (.raised e) →
        businessCaught e.cls = false →
        processQuery cfg query rBeh sBeh =
          Except.ok (.errorResult "UnexpectedError"
            ("An unexpected error occurred: " ++ e.msg) none)) ∧
      (∀ r, (retryExecute cfg "get_reasoning" rBeh).1 = Except.ok r →
        (∀ m e n, (retryExecute cfg "generate_code" sBeh).1 =
            Except.error (.retryExhausted m e n) →
          processQuery cfg query rBeh sBeh =
            Except.ok (.errorResult e.cls.name e.msg e.details)) ∧
        (∀ e, (retryExecute cfg "generate_code" sBeh).1 = Except.error (.raised e) →
          businessCaught e.cls = true →
          processQuery cfg query rBeh sBeh =
            Except.ok (.errorResult e.cls.name e.msg e.details)) ∧
        (∀ e, (retryExecute cfg "generate_code" sBeh).1 = Except.error (.raised e) →
          businessCaught e.cls = false →
          processQuery cfg query rBeh sBeh =
            Except.ok (.errorResult "UnexpectedError"
              ("An unexpected error occurred: " ++ e.msg) none)) ∧
        (∀ s, (retryExecute cfg "generate_code" sBeh).1 = Except.ok s →
          processQuery cfg query rBeh sBeh =
            Except.ok (.successResult s.codeCompletion
              ⟨r.thoughts.getD [], r.reasoning.getD "", r.metadata.getD []⟩
              ⟨s.codeCompletion, s.explanation, s.metadata.getD []⟩)))) := by
  refine ⟨processQuery_total cfg query rBeh sBeh,
    fun hq => processQuery_empty cfg query rBeh sBeh hq,
    fun hq => ⟨fun m e n h => processQuery_r_exhausted cfg query rBeh sBeh hq m e n h,
      fun e h hb => processQuery_r_raised_business cfg query rBeh sBeh hq e h hb,
      fun e h hb => processQuery_r_raised_other cfg query rBeh sBeh hq e h hb,
      fun r hr => ⟨fun m e n h => processQuery_s_exhausted cfg query rBeh sBeh hq r hr m e n h,
        fun e h hb => processQuery_s_raised_business cfg query rBeh sBeh hq r hr e h hb,
        fun e h hb => processQuery_s_raised_other cfg query rBeh sBeh hq r hr e h hb,
        fun s hs => processQuery_both_ok cfg query rBeh sBeh hq r s hr hs⟩⟩⟩

/-- Witness for `process_query_error_contract`: a reasoning stage that
always raises a (retryable) `ReasoningError` under `max_retries = 1` ends
in a failure tagged `ReasoningError` with the original message. -/
theorem process_query_error_contract_witness :
    processQuery ⟨1, 1, 10, 1/10, 2⟩ "add two numbers"
      (fun _ => Except.error ⟨ExcCls.reasoningError, "model unavailable", some [], none⟩)
      (fun _ => Except.ok ⟨"print(1)", some "code", some []⟩) =
      Except.ok (.errorResult "ReasoningError" "model unavailable" (some [])) := by
  have h := ((process_query_error_contract ⟨1, 1, 10, 1/10, 2⟩ "add two numbers"
    (fun _ => Except.error ⟨ExcCls.reasoningError, "model unavailable", some [], none⟩)
    (fun _ => Except.ok ⟨"print(1)", some "code", some []⟩)).2.2 (by decide)).1
    (exhaustMsg "get_reasoning" 2)
    ⟨ExcCls.reasoningError, "model unavailable", some [], none⟩ 2 (by decide)
  exact h

/-- C1 (code bug): `UnifiedOrchestrator.process_query` never touches the
history — its body contains no call to `_update_history` — so no completed
query is ever appended; concretely, a fresh orchestrator with
`max_history_size = 100` that completes one successful query still has
`get_history()` return the empty list, where the claim expects one entry. -/
theorem process_query_leaves_history_unchanged :
    (∀ (st : OrchestratorState) (cfg : RetryConfig) (q : String)
        (rBeh : Nat → Except PyExc RDict) (sBeh : Nat → Except PyExc SDict),
      (processQueryStep st cfg q rBeh sBeh).2 = st) ∧
    (processQueryStep ⟨100, []⟩ ⟨3, 1, 10, 1/10, 2⟩ "write a function that adds two numbers"
        (fun _ => Except.ok ⟨some ["plan the function"], some "use a + b", some []⟩)
        (fun _ => Except.ok ⟨"def add(a, b): return a + b", some "adds", some []⟩)).1 =
      Except.ok (.successResult "def add(a, b): return a + b"
        ⟨["plan the function"], "use a + b", []⟩
        ⟨"def add(a, b): return a + b", some "adds", []⟩) ∧
    getHistory (processQueryStep ⟨100, []⟩ ⟨3, 1, 10, 1/10, 2⟩
        "write a function that adds two numbers"
        (fun _ => Except.ok ⟨some ["plan the function"], some "use a + b", some []⟩)
        (fun _ => Except.ok ⟨"def add(a, b): return a + b", some "adds", some []⟩)).2
      none false = [] := by
  refine ⟨fun st cfg q rB sB => rfl, by decide, rfl⟩

/-- C10: `get_history(limit=0)` returns the entire (optionally
success-filtered) history — identical to passing no limit, and in
particular not the empty list when the filtered history is non-empty —
because `if limit:` is falsy for `0`; a positive limit returns the last
`limit` entries of the filtered history in order. -/
theorem get_history_limit_semantics (st : OrchestratorState) (successOnly : Bool) :
    getHistory st (some 0) successOnly = getHistory st none successOnly ∧
    getHistory st (some 0) successOnly = filteredHistory st successOnly ∧
    (∀ k : Nat, 0 < k →
      getHistory st (some (k : Int)) successOnly =
        (filteredHistory st successOnly).drop
          ((filteredHistory st successOnly).length -
            min k (filteredHistory st successOnly).length)) ∧
    (filteredHistory st successOnly ≠ [] →
      getHistory st (some 0) successOnly ≠ []) := by
  have h0 : getHistory st (some 0) successOnly = filteredHistory st successOnly := by
    simp [getHistory, pyTruthyInt]
  refine ⟨by simp [getHistory, pyTruthyInt], h0, ?_, fun hne => by rwa [h0]⟩
  intro k hk
  have hkz : ((k : Int) != 0) = true := by
    simp only [bne_iff_ne, ne_eq, Int.natCast_eq_zero]
    omega
  have hneg : (-(k : Int)) < 0 := by omega
  simp only [getHistory, pyTruthyInt, hkz, if_true, Option.getD_some, pyDropFrom,
    if_pos hneg]
  congr 1
  omega

/-- Witness for `get_history_limit_semantics`: on a three-entry history,
`limit=0` returns all three entries (non-empty), `limit=2` the last two. -/
theorem get_history_limit_semantics_witness :
    getHistory ⟨100, [⟨"a", .errorResult "ValidationError" "m" none⟩,
        ⟨"b", .successResult "x" ⟨[], "", []⟩ ⟨"x", none, []⟩⟩,
        ⟨"c", .successResult "y" ⟨[], "", []⟩ ⟨"y", none, []⟩⟩]⟩ (some 0) false =
      [⟨"a", .errorResult "ValidationError" "m" none⟩,
        ⟨"b", .successResult "x" ⟨[], "", []⟩ ⟨"x", none, []⟩⟩,
        ⟨"c", .successResult "y" ⟨[], "", []⟩ ⟨"y", none, []⟩⟩] ∧
    getHistory ⟨100, [⟨"a", .errorResult "ValidationError" "m" none⟩,
        ⟨"b", .successResult "x" ⟨[], "", []⟩ ⟨"x", none, []⟩⟩,
        ⟨"c", .successResult "y" ⟨[], "", []⟩ ⟨"y", none, []⟩⟩]⟩ (some 2) false =
      [⟨"b", .successResult "x" ⟨[], "", []⟩ ⟨"x", none, []⟩⟩,
        ⟨"c", .successResult "y" ⟨[], "", []⟩ ⟨"y", none, []⟩⟩] ∧
    getHistory ⟨100, [⟨"a", .errorResult "ValidationError" "m" none⟩,
        ⟨"b", .successResult "x" ⟨[], "", []⟩ ⟨"x", none, []⟩⟩,
        ⟨"c", .successResult "y" ⟨[], "", []⟩ ⟨"y", none, []⟩⟩]⟩ (some 0) false ≠ [] := by
  refine ⟨?_, ?_, ?_⟩
  · exact (get_history_limit_semantics _ false).2.1.trans (by decide)
  · exact ((get_history_limit_semantics _ false).2.2.1 2 (by decide)).trans (by decide)
  · exact (get_history_limit_semantics _ false).2.2.2 (by decide)

/-- C9: `run_sandbox` always returns a result mapping and never raises;
empty or whitespace-only code yields `success=false` with an error message
and zero sandbox invocations; a sandbox execution failure surfaces as
`success=false` with an error message; a sandbox success is passed
through. -/
theorem run_sandbox_total_contract :
    (∀ (code : String) (quick : Except PyExc SandboxDict),
      ∃ r, (runSandbox code quick).1 = Except.ok r) ∧
    (∀ (code : String) (quick : Except PyExc SandboxDict), pyStrip code = "" →
      runSandbox code quick =
        (Except.ok ⟨false, none, some "Code cannot be empty"⟩, 0)) ∧
    (∀ (code : String) (quick : Except PyExc SandboxDict) (e : PyExc),
      pyStrip code ≠ "" → quick = Except.error e →
      runSandbox code quick =
        (Except.ok ⟨false, none,
          some ("Sandbox execution failed: Error executing code in sandbox: " ++ e.msg)⟩, 1)) ∧
    (∀ (code : String) (quick : Except PyExc SandboxDict) (d : SandboxDict),
      pyStrip code ≠ "" → quick = Except.ok d →
      runSandbox code quick = (Except.ok ⟨d.success, d.output, d.error⟩, 1)) := by
  have hcode : ∀ code : String, pyStrip code ≠ "" → code ≠ "" := by
    intro code h hc
    exact h (by simp [hc, pyStrip])
  refine ⟨?_, ?_, ?_, ?_⟩
  · intro code quick
    by_cases hq : pyStrip code = ""
    · exact ⟨⟨false, none, some "Code cannot be empty"⟩, by simp [runSandbox, hq]⟩
    · cases quick with
      | ok d =>
        exact ⟨⟨d.success, d.output, d.error⟩,
          by simp [runSandbox, hq, hcode code hq, executeCodeInSandbox]⟩
      | error e =>
        exact ⟨⟨false, none,
            some ("Sandbox execution failed: " ++ ("Error executing code in sandbox: " ++ e.msg))⟩,
          by simp [runSandbox, hq, hcode code hq, executeCodeInSandbox]⟩
  · intro code quick hq
    simp [runSandbox, hq]
  · intro code quick e hq hquick
    have hs : "Sandbox execution failed: " ++ ("Error executing code in sandbox: " ++ e.msg) =
        "Sandbox execution failed: Error executing code in sandbox: " ++ e.msg := by
      rw [← String.append_assoc]; rfl
    rw [← hs]
    simp [runSandbox, hq, hcode code hq, hquick, executeCodeInSandbox]
  · intro code quick d hq hquick
    simp [runSandbox, hq, hcode code hq, hquick, executeCodeInSandbox]

/-- Witness for `run_sandbox_total_contract`: whitespace code is rejected
without a sandbox call; a failing sandbox surfaces as `success=false`. -/
theorem run_sandbox_total_contract_witness :
    runSandbox "   " (Except.ok ⟨true, some "hi", none⟩) =
      (Except.ok ⟨false, none, some "Code cannot be empty"⟩, 0) ∧
    runSandbox "print(1)" (Except.error ⟨ExcCls.valueError, "boom", none, none⟩) =
      (Except.ok ⟨false, none,
        some "Sandbox execution failed: Error executing code in sandbox: boom"⟩, 1) ∧
    runSandbox "print(1)" (Except.ok ⟨true, some "1", none⟩) =
      (Except.ok ⟨true, some "1", none⟩, 1) := by
  refine ⟨?_, ?_, ?_⟩
  · exact run_sandbox_total_contract.2.1 "   " _ (by decide)
  · exact (run_sandbox_total_contract.2.2.1 "print(1)" _
      ⟨ExcCls.valueError, "boom", none, none⟩ (by decide) rfl).trans (by decide)
  · exact run_sandbox_total_contract.2.2.2 "print(1)" _ ⟨true, some "1", none⟩
      (by decide) rfl

/-- C6 (code bug): `RateLimiter.__init__` performs no validation at all,
so `RateLimiter(rate_per_minute=0, burst_limit=0)` is constructed without
any error — and the resulting limiter starves: `acquire()` can never grant
a token at any time. -/
theorem rate_limiter_accepts_zero_config :
    rateLimiterInit 0 0 0 = Except.ok ⟨0, 0, 0, 0⟩ ∧
    (∀ now : ℚ, (geminiAcquire ⟨0, 0, 0, 0⟩ now).1 = false) := by
  constructor
  · simp [rateLimiterInit]
  · intro now
    simp [geminiAcquire, rlUpdateTokens, show ¬(1 : ℚ) ≤ 0 by norm_num]

/-- C7 counterexample: the gemini `RateLimiter.acquire` does not wait.
Against a fresh `RateLimiter(rate_per_minute=60, burst_limit=1)`, a burst
of `burst_limit + 1 = 2` immediate `acquire()` calls has the second call
return `False` immediately — no wait time is computed, no sleep-and-retry
happens, and no token is consumed — contradicting the claim that for every
RateLimiter state an unsatisfiable `acquire()` sleeps until a token is
available. -/
theorem gemini_acquire_burst_last_call_fails :
    rateLimiterInit 60 1 0 = Except.ok ⟨1, 1, 1, 0⟩ ∧
    (geminiAcquire ⟨1, 1, 1, 0⟩ 0).1 = true ∧
    geminiAcquire (geminiAcquire ⟨1, 1, 1, 0⟩ 0).2 0 = (false, ⟨1, 1, 0, 0⟩) := by
  refine ⟨?_, ?_, ?_⟩ <;>
    norm_num [rateLimiterInit, geminiAcquire, rlUpdateTokens, Prod.ext_iff,
      RLState.mk.injEq]

/-- C7 (amended): the two `RateLimiter.acquire` implementations differ.
The claude-client copy never fails: with a replenished token it consumes
one and returns at once; with none it sleeps exactly
`(1 - tokens) / rate` and then succeeds (a strictly later return time —
it waits rather than fails).  The gemini copy does not wait: with no
replenished token it returns `False` immediately, leaving the state
otherwise unchanged. -/
theorem rate_limiter_acquire_policies (s : RLState) (now : ℚ)
    (hr : 0 < s.rate) (hb : 1 ≤ s.burstLimit) :
    (1 ≤ min s.burstLimit (s.tokens + (now - s.lastUpdate) * s.rate) →
      claudeAcquireLoop 2 s now =
        some (now, ⟨s.rate, s.burstLimit,
          min s.burstLimit (s.tokens + (now - s.lastUpdate) * s.rate) - 1, now⟩)) ∧
    (min s.burstLimit (s.tokens + (now - s.lastUpdate) * s.rate) < 1 →
      claudeAcquireLoop 2 s now =
        some (now + (1 - min s.burstLimit (s.tokens + (now - s.lastUpdate) * s.rate)) / s.rate,
          ⟨s.rate, s.burstLimit, 0,
            now + (1 - min s.burstLimit (s.tokens + (now - s.lastUpdate) * s.rate)) / s.rate⟩) ∧
      now < now + (1 - min s.burstLimit (s.tokens + (now - s.lastUpdate) * s.rate)) / s.rate) ∧
    (min s.burstLimit (s.tokens + (now - s.lastUpdate) * s.rate) < 1 →
      geminiAcquire s now =
        (false, ⟨s.rate, s.burstLimit,
          min s.burstLimit (s.tokens + (now - s.lastUpdate) * s.rate), now⟩)) := by
  refine ⟨?_, ?_, ?_⟩
  · intro h
    simp [claudeAcquireLoop, h]
  · intro h
    have hrate : s.rate ≠ 0 := ne_of_gt hr
    have hwpos : 0 < (1 - min s.burstLimit (s.tokens + (now - s.lastUpdate) * s.rate)) / s.rate :=
      div_pos (by linarith) hr
    refine ⟨?_, by linarith⟩
    have hsecond :
        min s.burstLimit
          (min s.burstLimit (s.tokens + (now - s.lastUpdate) * s.rate) +
            (now + (1 - min s.burstLimit (s.tokens + (now - s.lastUpdate) * s.rate)) / s.rate - now) *
              s.rate) = 1 := by
      rw [show now + (1 - min s.burstLimit (s.tokens + (now - s.lastUpdate) * s.rate)) / s.rate - now =
        (1 - min s.burstLimit (s.tokens + (now - s.lastUpdate) * s.rate)) / s.rate by ring]
      rw [div_mul_cancel₀ _ hrate]
      rw [show min s.burstLimit (s.tokens + (now - s.lastUpdate) * s.rate) +
        (1 - min s.burstLimit (s.tokens + (now - s.lastUpdate) * s.rate)) = 1 by ring]
      exact min_eq_right hb
    simp only [claudeAcquireLoop, not_le.mpr h, if_false, hsecond]
    norm_num
  · intro h
    simp [geminiAcquire, rlUpdateTokens, not_le.mpr h]

/-- Witness for `rate_limiter_acquire_policies`: with `rate = 1/s`,
`burst_limit = 10` and no tokens, the claude acquire returns at virtual
time `1` with the bucket empty; with 5 tokens it returns immediately; the
gemini acquire with no tokens returns `False`. -/
theorem rate_limiter_acquire_policies_witness :
    claudeAcquireLoop 2 ⟨1, 10, 5, 0⟩ 0 = some (0, ⟨1, 10, 4, 0⟩) ∧
    claudeAcquireLoop 2 ⟨1, 10, 0, 0⟩ 0 = some (1, ⟨1, 10, 0, 1⟩) ∧
    geminiAcquire ⟨1, 10, 0, 0⟩ 0 = (false, ⟨1, 10, 0, 0⟩) := by
  refine ⟨?_, ?_, ?_⟩
  · exact ((rate_limiter_acquire_policies ⟨1, 10, 5, 0⟩ 0 (by norm_num)
      (by norm_num)).1 (by norm_num)).trans (by norm_num)
  · exact (((rate_limiter_acquire_policies ⟨1, 10, 0, 0⟩ 0 (by norm_num)
      (by norm_num)).2.1 (by norm_num)).1).trans (by norm_num)
  · exact ((rate_limiter_acquire_policies ⟨1, 10, 0, 0⟩ 0 (by norm_num)
      (by norm_num)).2.2 (by norm_num)).trans (by norm_num)


/- helper lemmas: call counts of `ClaudeSynthesizer.generate_code`.  Every
error produced by one attempt has class `ClaudeAPIError` (the handlers and
the method's own `except Exception` wrap everything else), so the tenacity
decorator never sees a retryable error and the attempt body runs once. -/

lemma claudeTenacity_step_ok
    (step : RLState → Option (Except PyExc SDict × Nat × RLState))
    (rl : RLState) (v : SDict) (calls : Nat) (rl1 : RLState)
    (h : step rl = some (Except.ok v, calls, rl1)) :
    claudeTenacity 3 step rl 0 = some (Except.ok v, calls, rl1) := by
  simp [claudeTenacity, h]

lemma claudeTenacity_step_err
    (step : RLState → Option (Except PyExc SDict × Nat × RLState))
    (rl : RLState) (e : PyExc) (calls : Nat) (rl1 : RLState)
    (h : step rl = some (Except.error e, calls, rl1))
    (h1 : e.cls ≠ ExcCls.rateLimitError) (h2 : e.cls ≠ ExcCls.connectionError) :
    claudeTenacity 3 step rl 0 = some (Except.error e, calls, rl1) := by
  simp [claudeTenacity, h, h1, h2]

lemma claudeTenacity_step_none
    (step : RLState → Option (Except PyExc SDict × Nat × RLState))
    (rl : RLState) (h : step rl = none) :
    claudeTenacity 3 step rl 0 = none := by
  simp [claudeTenacity, h]

lemma claudeAttempt_nonstream_ok (rl : RLState) (now : ℚ) (sR : Except PyExc SDict)
    (v : SDict) (g : ℚ) (rl1 : RLState)
    (hacq : claudeAcquireLoop 2 rl now = some (g, rl1))
    (hv : validateResultStructure v = true) :
    claudeAttempt ⟨false⟩ rl now sR (Except.ok v) = some (Except.ok v, 1, rl1) := by
  unfold claudeAttempt
  rw [hacq]
  exact if_pos hv

lemma claudeAttempt_nonstream_invalid (rl : RLState) (now : ℚ) (sR : Except PyExc SDict)
    (v : SDict) (g : ℚ) (rl1 : RLState)
    (hacq : claudeAcquireLoop 2 rl now = some (g, rl1))
    (hv : ¬ validateResultStructure v = true) :
    claudeAttempt ⟨false⟩ rl now sR (Except.ok v) =
      some (Except.error ⟨.claudeAPIError,
        "Failed to generate code: Invalid response structure from Claude",
        some [], none⟩, 1, rl1) := by
  unfold claudeAttempt
  rw [hacq]
  exact if_neg hv

lemma claudeAttempt_nonstream_err (rl : RLState) (now : ℚ) (sR : Except PyExc SDict)
    (e : PyExc) (g : ℚ) (rl1 : RLState)
    (hacq : claudeAcquireLoop 2 rl now = some (g, rl1)) :
    claudeAttempt ⟨false⟩ rl now sR (Except.error e) =
      some (Except.error ⟨.claudeAPIError,
        "Failed to generate code: " ++
          ("Failed to handle " ++ "regular" ++ " response: " ++ e.msg),
        some [], none⟩, 1, rl1) := by
  unfold claudeAttempt
  rw [hacq]
  rfl

lemma claudeAttempt_stream_ok (rl : RLState) (now : ℚ) (v : SDict)
    (rR : Except PyExc SDict) (g : ℚ) (rl1 : RLState)
    (hacq : claudeAcquireLoop 2 rl now = some (g, rl1))
    (hv : validateResultStructure v = true) :
    claudeAttempt ⟨true⟩ rl now (Except.ok v) rR = some (Except.ok v, 1, rl1) := by
  unfold claudeAttempt
  rw [hacq]
  exact if_pos hv

lemma claudeAttempt_stream_ok_invalid (rl : RLState) (now : ℚ) (v : SDict)
    (rR : Except PyExc SDict) (g : ℚ) (rl1 : RLState)
    (hacq : claudeAcquireLoop 2 rl now = some (g, rl1))
    (hv : ¬ validateResultStructure v = true) :
    claudeAttempt ⟨true⟩ rl now (Except.ok v) rR =
      some (Except.error ⟨.claudeAPIError,
        "Failed to generate code: Invalid response structure from Claude",
        some [], none⟩, 1, rl1) := by
  unfold claudeAttempt
  rw [hacq]
  exact if_neg hv

lemma claudeAttempt_stream_err_ok (rl : RLState) (now : ℚ) (e : PyExc) (w : SDict)
    (g : ℚ) (rl1 : RLState)
    (hacq : claudeAcquireLoop 2 rl now = some (g, rl1))
    (hw : validateResultStructure w = true) :
    claudeAttempt ⟨true⟩ rl now (Except.error e) (Except.ok w) =
      some (Except.ok w, 2, rl1) := by
  unfold claudeAttempt
  rw [hacq]
  exact if_pos hw

lemma claudeAttempt_stream_err_invalid (rl : RLState) (now : ℚ) (e : PyExc) (w : SDict)
    (g : ℚ) (rl1 : RLState)
    (hacq : claudeAcquireLoop 2 rl now = some (g, rl1))
    (hw : ¬ validateResultStructure w = true) :
    claudeAttempt ⟨true⟩ rl now (Except.error e) (Except.ok w) =
      some (Except.error ⟨.claudeAPIError,
        "Failed to generate code: Invalid response structure from Claude",
        some [], none⟩, 2, rl1) := by
  unfold claudeAttempt
  rw [hacq]
  exact if_neg hw

lemma claudeAttempt_stream_err_err (rl : RLState) (now : ℚ) (e e2 : PyExc)
    (g : ℚ) (rl1 : RLState)
    (hacq : claudeAcquireLoop 2 rl now = some (g, rl1)) :
    claudeAttempt ⟨true⟩ rl now (Except.error e) (Except.error e2) =
      some (Except.error ⟨.claudeAPIError,
        "Failed to generate code: " ++
          ("Failed to handle " ++ "regular" ++ " response: " ++ e2.msg),
        some [], none⟩, 2, rl1) := by
  unfold claudeAttempt
  rw [hacq]
  rfl

lemma claudeAttempt_none (cfg : ClaudeCfg) (rl : RLState) (now : ℚ)
    (sR rR : Except PyExc SDict)
    (hacq : claudeAcquireLoop 2 rl now = none) :
    claudeAttempt cfg rl now sR rR = none := by
  unfold claudeAttempt
  rw [hacq]

lemma claudeGenerateCode_none (cfg : ClaudeCfg) (rl : RLState) (now : ℚ)
    (sR rR : Except PyExc SDict)
    (hacq : claudeAcquireLoop 2 rl now = none) :
    claudeGenerateCode cfg rl now sR rR = none := by
  unfold claudeGenerateCode
  exact claudeTenacity_step_none _ rl (claudeAttempt_none cfg rl now sR rR hacq)

lemma claudeGenerateCode_nonstream (rl : RLState) (now : ℚ)
    (sR rR : Except PyExc SDict) (g : ℚ) (rl1 : RLState)
    (hacq : claudeAcquireLoop 2 rl now = some (g, rl1)) :
    ∃ res, claudeGenerateCode ⟨false⟩ rl now sR rR = some (res, 1, rl1) := by
  unfold claudeGenerateCode
  cases rR with
  | ok v =>
    by_cases hv : validateResultStructure v = true
    · exact ⟨_, claudeTenacity_step_ok _ rl v 1 rl1
        (claudeAttempt_nonstream_ok rl now sR v g rl1 hacq hv)⟩
    · exact ⟨_, claudeTenacity_step_err _ rl _ 1 rl1
        (claudeAttempt_nonstream_invalid rl now sR v g rl1 hacq hv) (by simp) (by simp)⟩
  | error e =>
    exact ⟨_, claudeTenacity_step_err _ rl _ 1 rl1
      (claudeAttempt_nonstream_err rl now sR e g rl1 hacq) (by simp) (by simp)⟩

lemma claudeGenerateCode_stream_ok (rl : RLState) (now : ℚ) (v : SDict)
    (rR : Except PyExc SDict) (g : ℚ) (rl1 : RLState)
    (hacq : claudeAcquireLoop 2 rl now = some (g, rl1)) :
    ∃ res, claudeGenerateCode ⟨true⟩ rl now (Except.ok v) rR = some (res, 1, rl1) := by
  unfold claudeGenerateCode
  by_cases hv : validateResultStructure v = true
  · exact ⟨_, claudeTenacity_step_ok _ rl v 1 rl1
      (claudeAttempt_stream_ok rl now v rR g rl1 hacq hv)⟩
  · exact ⟨_, claudeTenacity_step_err _ rl _ 1 rl1
      (claudeAttempt_stream_ok_invalid rl now v rR g rl1 hacq hv) (by simp) (by simp)⟩

lemma claudeGenerateCode_stream_err (rl : RLState) (now : ℚ) (e : PyExc)
    (rR : Except PyExc SDict) (g : ℚ) (rl1 : RLState)
    (hacq : claudeAcquireLoop 2 rl now = some (g, rl1)) :
    ∃ res, claudeGenerateCode ⟨true⟩ rl now (Except.error e) rR = some (res, 2, rl1) := by
  unfold claudeGenerateCode
  cases rR with
  | ok w =>
    by_cases hw : validateResultStructure w = true
    · exact ⟨_, claudeTenacity_step_ok _ rl w 2 rl1
        (claudeAttempt_stream_err_ok rl now e w g rl1 hacq hw)⟩
    · exact ⟨_, claudeTenacity_step_err _ rl _ 2 rl1
        (claudeAttempt_stream_err_invalid rl now e w g rl1 hacq hw) (by simp) (by simp)⟩
  | error e2 =>
    exact ⟨_, claudeTenacity_step_err _ rl _ 2 rl1
      (claudeAttempt_stream_err_err rl now e e2 g rl1 hacq) (by simp) (by simp)⟩

/-- C5 counterexample: with streaming enabled, one invocation of
`ClaudeSynthesizer.generate_code` whose streaming call fails performs two
outbound calls — the failed streaming call plus the non-streaming fallback
call — contradicting the claim of exactly one outbound call per invocation
with no retry internal to the client (the method also carries its own
tenacity retry decorator). -/
theorem claude_streaming_fallback_two_calls :
    claudeGenerateCode ⟨true⟩ ⟨1, 10, 10, 0⟩ 0
      (Except.error ⟨.claudeAPIError, "stream broke", some [], none⟩)
      (Except.ok ⟨"print(1)", some "prints 1", some []⟩) =
      some (Except.ok ⟨"print(1)", some "prints 1", some []⟩, 2, ⟨1, 10, 9, 0⟩) := by
  have hacq : claudeAcquireLoop 2 ⟨1, 10, 10, 0⟩ 0 = some (0, ⟨1, 10, 9, 0⟩) := by
    norm_num [claudeAcquireLoop, Option.some.injEq, Prod.mk.injEq, RLState.mk.injEq]
  unfold claudeGenerateCode
  exact claudeTenacity_step_ok _ _ _ 2 _
    (claudeAttempt_stream_err_ok ⟨1, 10, 10, 0⟩ 0
      ⟨.claudeAPIError, "stream broke", some [], none⟩
      ⟨"print(1)", some "prints 1", some []⟩ 0 ⟨1, 10, 9, 0⟩ hacq (by decide))

/-- C5 (amended): `GeminiReasoner.get_reasoning` performs at most one
outbound call per invocation — exactly one when the query is non-empty and
a rate token is granted — with no internal retry.
`ClaudeSynthesizer.generate_code`, by contrast, carries an internal
tenacity retry decorator (which never fires, because every error leaving
the body is a `ClaudeAPIError`) and, in streaming mode, falls back to a
second, non-streaming outbound call when the streaming call fails: one
completed invocation makes exactly one call when not streaming or when the
streaming call succeeds, and exactly two when the streaming call fails. -/
theorem client_single_call_policy :
    (∀ (α : Type) (query : String) (rl : RLState) (now : ℚ)
        (callResult : Except PyExc α),
      (geminiGetReasoning query rl now callResult).2.1 ≤ 1) ∧
    (∀ (α : Type) (query : String) (rl : RLState) (now : ℚ)
        (callResult : Except PyExc α),
      query ≠ "" → (geminiAcquire rl now).1 = true →
      (geminiGetReasoning query rl now callResult).2.1 = 1) ∧
    (∀ (rl : RLState) (now : ℚ) (streamResp regResp : Except PyExc SDict)
        (res : Except PyExc SDict) (calls : Nat) (rl' : RLState),
      claudeGenerateCode ⟨false⟩ rl now streamResp regResp = some (res, calls, rl') →
      calls = 1) ∧
    (∀ (rl : RLState) (now : ℚ) (v : SDict) (regResp : Except PyExc SDict)
        (res : Except PyExc SDict) (calls : Nat) (rl' : RLState),
      claudeGenerateCode ⟨true⟩ rl now (Except.ok v) regResp = some (res, calls, rl') →
      calls = 1) ∧
    (∀ (rl : RLState) (now : ℚ) (e : PyExc) (regResp : Except PyExc SDict)
        (res : Except PyExc SDict) (calls : Nat) (rl' : RLState),
      claudeGenerateCode ⟨true⟩ rl now (Except.error e) regResp = some (res, calls, rl') →
      calls = 2) := by
  refine ⟨?_, ?_, ?_, ?_, ?_⟩
  · intro α query rl now callResult
    by_cases hq : query = ""
    · simp [geminiGetReasoning, hq]
    · rcases hacq : geminiAcquire rl now with ⟨granted, rl1⟩
      cases granted <;> simp [geminiGetReasoning, hq, hacq]
  · intro α query rl now callResult hq hgr
    rcases hacq : geminiAcquire rl now with ⟨granted, rl1⟩
    rw [hacq] at hgr
    simp only at hgr
    subst hgr
    simp [geminiGetReasoning, hq, hacq]
  · intro rl now sR rR res calls rl' h
    cases hacq : claudeAcquireLoop 2 rl now with
    | none =>
      rw [claudeGenerateCode_none ⟨false⟩ rl now sR rR hacq] at h
      exact absurd h (by simp)
    | some pr =>
      obtain ⟨res0, h0⟩ := claudeGenerateCode_nonstream rl now sR rR pr.1 pr.2
        (by rw [hacq])
      rw [h0] at h
      simp only [Option.some.injEq, Prod.mk.injEq] at h
      exact h.2.1.symm
  · intro rl now v rR res calls rl' h
    cases hacq : claudeAcquireLoop 2 rl now with
    | none =>
      rw [claudeGenerateCode_none ⟨true⟩ rl now (Except.ok v) rR hacq] at h
      exact absurd h (by simp)
    | some pr =>
      obtain ⟨res0, h0⟩ := claudeGenerateCode_stream_ok rl now v rR pr.1 pr.2
        (by rw [hacq])
      rw [h0] at h
      simp only [Option.some.injEq, Prod.mk.injEq] at h
      exact h.2.1.symm
  · intro rl now e rR res calls rl' h
    cases hacq : claudeAcquireLoop 2 rl now with
    | none =>
      rw [claudeGenerateCode_none ⟨true⟩ rl now (Except.error e) rR hacq] at h
      exact absurd h (by simp)
    | some pr =>
      obtain ⟨res0, h0⟩ := claudeGenerateCode_stream_err rl now e rR pr.1 pr.2
        (by rw [hacq])
      rw [h0] at h
      simp only [Option.some.injEq, Prod.mk.injEq] at h
      exact h.2.1.symm

/-- Witness for `client_single_call_policy`: a non-empty query against a
limiter with available tokens makes exactly one outbound reasoning call;
and a completed non-streaming synthesis invocation made exactly one
outbound call. -/
theorem client_single_call_policy_witness :
    (geminiGetReasoning "write code" ⟨1, 10, 10, 0⟩ 0
      (Except.ok (⟨some [], some "", some []⟩ : RDict))).2.1 = 1 ∧
    ∃ (res : Except PyExc SDict) (calls : Nat) (rl' : RLState),
      claudeGenerateCode ⟨false⟩ ⟨1, 10, 10, 0⟩ 0
        (Except.ok ⟨"x", some "e", some []⟩) (Except.ok ⟨"x", some "e", some []⟩) =
        some (res, calls, rl') ∧ calls = 1 := by
  have hacq : claudeAcquireLoop 2 ⟨1, 10, 10, 0⟩ 0 = some (0, ⟨1, 10, 9, 0⟩) := by
    norm_num [claudeAcquireLoop, Option.some.injEq, Prod.mk.injEq, RLState.mk.injEq]
  have hclaude : claudeGenerateCode ⟨false⟩ ⟨1, 10, 10, 0⟩ 0
      (Except.ok ⟨"x", some "e", some []⟩) (Except.ok ⟨"x", some "e", some []⟩) =
      some (Except.ok ⟨"x", some "e", some []⟩, 1, ⟨1, 10, 9, 0⟩) := by
    unfold claudeGenerateCode
    exact claudeTenacity_step_ok _ _ _ 1 _
      (claudeAttempt_nonstream_ok ⟨1, 10, 10, 0⟩ 0 (Except.ok ⟨"x", some "e", some []⟩)
        ⟨"x", some "e", some []⟩ 0 ⟨1, 10, 9, 0⟩ hacq (by decide))
  constructor
  · exact client_single_call_policy.2.1 RDict "write code" ⟨1, 10, 10, 0⟩ 0
      (Except.ok ⟨some [], some "", some []⟩) (by decide)
      (by norm_num [geminiAcquire, rlUpdateTokens])
  · exact ⟨_, _, _, hclaude,
      client_single_call_policy.2.2.1 ⟨1, 10, 10, 0⟩ 0 _ _ _ _ _ hclaude⟩

/-- C8 counterexample: when the reasoning stage raises
`RateLimitError("Rate limit exceeded for Gemini API", retry_after=30)` on
every attempt, the final failure result has `error_kind = "RateLimitError"`
but its details mapping is the exception's own empty `details` dict — it
contains no `retry_after` entry, contradicting the claim. -/
theorem rate_limit_failure_details_lack_retry_after :
    processQuery ⟨1, 1, 10, 1/10, 2⟩ "add two numbers"
      (fun _ => Except.error ⟨.rateLimitError, "Rate limit exceeded for Gemini API",
        some [], some 30⟩)
      (fun _ => Except.ok ⟨"x", some "e", some []⟩) =
      Except.ok (.errorResult "RateLimitError" "Rate limit exceeded for Gemini API"
        (some [])) ∧
    ((OrchestrationResult.errorResult "RateLimitError"
        "Rate limit exceeded for Gemini API" (some [])).error.map
      (fun d => (d.details.getD []).lookup "retry_after")) = some none := by
  exact ⟨by decide, rfl⟩

/-- C8 (amended): if the reasoning stage raises a `RateLimitError` (with a
`retry_after` attribute and its default-empty `details` dict) on every
attempt, `process_query` returns a failure whose `error_kind` is
`"RateLimitError"` and whose message is the original message — but whose
details mapping is the exception's empty `details` dict, so `retry_after`
is not present in the result's details (it lives only on the exception's
`retry_after` attribute, which `process_query` does not copy). -/
theorem rate_limit_exhaustion_result (cfg : RetryConfig) (query msg : String)
    (ra : ℚ) (sBeh : Nat → Except PyExc SDict) (hq : pyStrip query ≠ "") :
    processQuery cfg query
      (fun _ => Except.error ⟨.rateLimitError, msg, some [], some ra⟩) sBeh =
      Except.ok (.errorResult "RateLimitError" msg (some [])) ∧
    ((ErrorInfo.mk "RateLimitError" msg (some [])).details.getD []).lookup
      "retry_after" = none := by
  constructor
  · have hex := retryLoop_all_fail (α := RDict) "get_reasoning"
      (fun _ => Except.error ⟨.rateLimitError, msg, some [], some ra⟩)
      (fun _ => ⟨.rateLimitError, msg, some [], some ra⟩) (fun _ => rfl) (fun _ => rfl)
      cfg.maxRetries 0
    have hre : (retryExecute (α := RDict) cfg "get_reasoning"
        (fun _ => Except.error ⟨.rateLimitError, msg, some [], some ra⟩)).1 =
        Except.error (.retryExhausted (exhaustMsg "get_reasoning" (cfg.maxRetries + 1))
          ⟨.rateLimitError, msg, some [], some ra⟩ (cfg.maxRetries + 1)) := by
      simp only [retryExecute, hex, Nat.zero_add]
    exact processQuery_r_exhausted cfg query _ sBeh hq _ _ _ hre
  · rfl

/-- Witness for `rate_limit_exhaustion_result`: concrete configuration and
query. -/
theorem rate_limit_exhaustion_result_witness :
    processQuery ⟨2, 1, 10, 1/10, 2⟩ "sort a list"
      (fun _ => Except.error ⟨.rateLimitError, "throttled", some [], some 12⟩)
      (fun _ => Except.ok ⟨"y", some "f", some []⟩) =
      Except.ok (.errorResult "RateLimitError" "throttled" (some [])) ∧
    ((ErrorInfo.mk "RateLimitError" "throttled" (some [])).details.getD []).lookup
      "retry_after" = none := by
  exact rate_limit_exhaustion_result ⟨2, 1, 10, 1/10, 2⟩ "sort a list" "throttled" 12
    (fun _ => Except.ok ⟨"y", some "f", some []⟩) (by decide)

/- helper lemmas: the gemini string-recovery chain finds nothing when none
of the section tags occur in the content -/

lemma recoverSection_none (content startTag endTag : String)
    (h : hasSub content startTag = false) :
    recoverSection content startTag endTag = [] := by
  simp [recoverSection, h]

lemma geminiBasicStringRecovery_none (content : String)
    (sandboxFromString : String → Option SandboxReq)
    (h1 : hasSub content "<technical_requirements>" = false)
    (h2 : hasSub content "<implementation_strategy>" = false)
    (h3 : hasSub content "<guidance_for_claude>" = false)
    (h4 : hasSub content "<sandbox_requirements>" = false) :
    geminiBasicStringRecovery content sandboxFromString = none := by
  simp [geminiBasicStringRecovery, recoverSection_none _ _ _ h1,
    recoverSection_none _ _ _ h2, recoverSection_none _ _ _ h3, h4, sandboxTruthy]

/-- C2 counterexample: the synthesis normalizer does not fall back.  On the
raw response `"no code here"` — from which no `code_completion` can be
recovered — `ClaudeXMLValidator.validate_and_process` raises
`XMLProcessingError("Failed to process XML", {'error': 'Missing code
completion'})` instead of returning the fixed fallback stub (the parse
outcome supplied is what the recovering parser produces for the wrapped
content: a bare `synthesis` root with text and no children). -/
theorem claude_validator_raises_without_fallback :
    claudeValidateAndProcess "no code here"
      (fun _ => Except.ok (Xml.elem "synthesis" [("version", "2.0.0")]
        (some "no code here") [])) =
      Except.error ⟨.xmlProcessingError, "Failed to process XML",
        some [("error", "Missing code completion")], none⟩ := by
  decide

/-- C2 (amended): the two normalizers diverge on unrecoverable input.  The
reasoning normalizer (`GeminiXMLProcessor.validate_and_process` with
recovery allowed) returns the fixed fallback dict when the parsed document
yields neither required section and the cleaned content contains none of
the recoverable section tags.  The synthesis normalizer
(`ClaudeXMLValidator.validate_and_process`) instead raises an
`XMLProcessingError` whenever the extracted `code_completion` is falsy —
its recovery/fallback helpers are never invoked. -/
theorem normalizer_fallback_contract :
    (∀ (raw : String) (xmlParse : String → Except PyExc Xml)
        (sandboxFromString : String → Option SandboxReq) (root : Xml),
      xmlParse (geminiCleanedContent raw) = Except.ok root →
      geminiExtractItems root "technical_requirements" = [] →
      geminiExtractItems root "implementation_strategy" = [] →
      hasSub (geminiCleanedContent raw) "<technical_requirements>" = false →
      hasSub (geminiCleanedContent raw) "<implementation_strategy>" = false →
      hasSub (geminiCleanedContent raw) "<guidance_for_claude>" = false →
      hasSub (geminiCleanedContent raw) "<sandbox_requirements>" = false →
      geminiValidateAndProcess raw xmlParse sandboxFromString true =
        Except.ok geminiFallbackDict) ∧
    (∀ (raw : String) (xmlParse : String → Except PyExc Xml) (root : Xml),
      raw ≠ "" →
      xmlParse (claudeCleanedContent raw) = Except.ok root →
      (claudeGetElementText root "code_completion" = none ∨
        claudeGetElementText root "code_completion" = some "") →
      claudeValidateAndProcess raw xmlParse =
        Except.error ⟨.xmlProcessingError, "Failed to process XML",
          some [("error", "Missing code completion")], none⟩) := by
  constructor
  · intro raw xp sfs root hp hT hI h1 h2 h3 h4
    have hrec := geminiBasicStringRecovery_none (geminiCleanedContent raw) sfs h1 h2 h3 h4
    simp [geminiValidateAndProcess, hp, geminiExtract, hT, hI,
      geminiProcessWithRecovery, hrec]
  · intro raw xp root hraw hp hcc
    rcases hcc with hcc | hcc <;>
      simp [claudeValidateAndProcess, hraw, hp, hcc]

/-- Witness for `normalizer_fallback_contract`: the raw response
`"hello world"` (no structure at all) drives the reasoning normalizer to
the fallback stub and makes the synthesis normalizer raise. -/
theorem normalizer_fallback_contract_witness :
    geminiValidateAndProcess "hello world"
      (fun _ => Except.ok (Xml.elem "reasoning" [("version", "2.0.0")]
        (some "hello world") []))
      (fun _ => none) true = Except.ok geminiFallbackDict ∧
    claudeValidateAndProcess "hello world"
      (fun _ => Except.ok (Xml.elem "synthesis" [("version", "2.0.0")]
        (some "hello world") [])) =
      Except.error ⟨.xmlProcessingError, "Failed to process XML",
        some [("error", "Missing code completion")], none⟩ := by
  constructor
  · exact normalizer_fallback_contract.1 "hello world" _ _
      (Xml.elem "reasoning" [("version", "2.0.0")] (some "hello world") [])
      rfl (by decide) (by decide) (by decide) (by decide) (by decide) (by decide)
  · exact normalizer_fallback_contract.2 "hello world" _
      (Xml.elem "synthesis" [("version", "2.0.0")] (some "hello world") [])
      (by decide) rfl (Or.inl (by decide))
